import Mathlib

/-!
# Verification of the procedural placement + instanced-LOD pipeline

Shallow embedding of the deterministic world-layout and per-frame LOD code of
the Nature-3D scene repository:

* `mulberry32` — the seeded PRNG (`src/components/Package/ProceduralTree.tsx`,
  lines 433-441, duplicated in each family module).  JavaScript 32-bit
  operations (`Math.imul`, `^`, `>>>`, `|`) act on the 32-bit two's-complement
  bit pattern of the operands, so they are modelled on `Nat` values reduced
  modulo `2^32`; the JS accumulator `a` stays below `2^53` over any realistic
  number of calls, so float addition of the seed increment is exact and only
  `a mod 2^32` influences any output.
* the zone map (`src/components/Package/LayoutMap.tsx`) — a 128×128 canvas
  painted with a GRASS base fill and 18 coloured disks.  Canvas `arc`+`fill`
  with an opaque colour is modelled geometrically: a pixel square fully inside
  the disk receives the disk's exact RGB colour, a square the disk does not
  meet keeps its colour, and a partially covered square becomes an antialiased
  blend that matches no entry of `ZONE_COLORS` exactly.  All disk centres and
  radii are exact multiples of 1/100 of a canvas pixel, so the inclusion
  tests are exact integer comparisons.
* `placeObjects` / `getLayoutZone` (`ProceduralTree.tsx`, lines 504-540) —
  rejection sampling with a 10000-attempt budget.  Every float computed on
  the sampling path (`(rng()-0.5)*20`, `x/20+0.5`, `u*128`, `Math.floor`) is
  exactly representable in IEEE double, so the ℚ model is bit-faithful; the
  squared-distance comparison is modelled in exact ℚ (float rounding there is
  ~1e-16 relative, far below the margins of every comparison in the runs
  verified here).
* the per-frame LOD updates of bushes, trees and grass
  (`src/unnamed/part_004`, `src/components/Package/ProceduralRock.tsx`,
  `src/unnamed/part_009`), and the `Math.random` save/override/restore
  construction protocol shared by all family builders.
-/

namespace Nature3D

/-- `2^32`, the modulus of all JavaScript 32-bit bit-pattern arithmetic. -/
def M32 : Nat := 4294967296

/-- `Math.imul`: 32-bit wrapping multiplication (the signed JS result has the
same 32-bit pattern as the unsigned product mod `2^32`). -/
def imul (a b : Nat) : Nat := (a * b) % M32

/-- The mutable closure variable `a` of `mulberry32`, reduced mod `2^32`. -/
structure RngState where
  a : Nat
deriving DecidableEq, Repr

/-- One call of the `mulberry32` closure (ProceduralTree.tsx lines 434-441):
advances the state and returns the raw 32-bit output `k`; the JS float result
of the call is `k / 4294967296`. -/
def mulberry32 (s : RngState) : RngState × Nat :=
  let a := (s.a + 0x6D2B79F5) % M32
  let t := a
  let t := imul (t ^^^ (t >>> 15)) (t ||| 1)
  let t := t ^^^ ((t + imul (t ^^^ (t >>> 7)) (t ||| 61)) % M32)
  (⟨a⟩, t ^^^ (t >>> 14))

/-- The float in `[0,1)` returned by one `rng()` call with raw output `k`. -/
def randValue (k : Nat) : ℚ := (k : ℚ) / 4294967296

/-- The zone names of `ZONE_COLORS` (LayoutMap.tsx lines 9-16). -/
inductive Zone
  | EMPTY | PATH | FLOWER | GRASS | BUSH | TREE
deriving DecidableEq, Repr

/-- The RGB triple of each zone (LayoutMap.tsx lines 9-16). -/
def zoneColor : Zone → Nat × Nat × Nat
  | .EMPTY => (0, 0, 0)
  | .PATH => (255, 255, 255)
  | .FLOWER => (255, 0, 0)
  | .GRASS => (0, 255, 0)
  | .BUSH => (0, 0, 255)
  | .TREE => (128, 0, 128)

/-- One `drawZone(x, y, radius, color)` call.  `x100`, `y100`, `r100` are the
normalized canvas arguments times 100 (every argument in the source is a
nonnegative exact multiple of 0.01). -/
structure Disk where
  x100 : Nat
  y100 : Nat
  r100 : Nat
  zone : Zone
deriving DecidableEq, Repr

/-- The 18 `drawZone` calls of `createLayoutMap`, in paint order
(LayoutMap.tsx lines 38-63): 6 TREE, 5 BUSH, 5 FLOWER, then 2 EMPTY disks
painted last. -/
def layoutDisks : List Disk :=
  [ ⟨20, 25, 5, .TREE⟩, ⟨80, 30, 5, .TREE⟩, ⟨75, 80, 5, .TREE⟩,
    ⟨25, 75, 5, .TREE⟩, ⟨50, 85, 5, .TREE⟩, ⟨50, 15, 5, .TREE⟩,
    ⟨35, 45, 4, .BUSH⟩, ⟨70, 20, 4, .BUSH⟩, ⟨15, 60, 4, .BUSH⟩,
    ⟨80, 60, 4, .BUSH⟩, ⟨60, 90, 4, .BUSH⟩,
    ⟨35, 65, 4, .FLOWER⟩, ⟨60, 45, 4, .FLOWER⟩, ⟨18, 10, 4, .FLOWER⟩,
    ⟨90, 50, 4, .FLOWER⟩, ⟨30, 90, 4, .FLOWER⟩,
    ⟨50, 50, 4, .EMPTY⟩, ⟨55, 52, 3, .EMPTY⟩ ]

/-- The state of one raster cell while the disks are painted: either the
exact colour of a zone, or an antialiased blend (a partially covered pixel),
which matches no entry of `ZONE_COLORS` exactly. -/
inductive PixelColor
  | pure (z : Zone)
  | blended
deriving DecidableEq, Repr

/-- Squared distance (scaled by 100², in canvas units where the map is
128×128 pixels) from the disk centre to the farthest corner of the pixel
square `[i,i+1]×[j,j+1]` (corner coordinates and centre are the natural
numbers `100i`, `100i+100`, `128·x100`, cast to `ℤ` for the signed
differences). -/
def diskMaxCornerSq (d : Disk) (i j : Nat) : Int :=
  let x0 : Int := (100 * i : Nat)
  let x1 : Int := (100 * i + 100 : Nat)
  let y0 : Int := (100 * j : Nat)
  let y1 : Int := (100 * j + 100 : Nat)
  let cx : Int := (128 * d.x100 : Nat)
  let cy : Int := (128 * d.y100 : Nat)
  max ((x0 - cx) * (x0 - cx)) ((x1 - cx) * (x1 - cx)) +
    max ((y0 - cy) * (y0 - cy)) ((y1 - cy) * (y1 - cy))

/-- Squared distance (same scaling) from the disk centre to the nearest point
of the pixel square. -/
def diskMinSq (d : Disk) (i j : Nat) : Int :=
  let x0 : Int := (100 * i : Nat)
  let x1 : Int := (100 * i + 100 : Nat)
  let y0 : Int := (100 * j : Nat)
  let y1 : Int := (100 * j + 100 : Nat)
  let cx : Int := (128 * d.x100 : Nat)
  let cy : Int := (128 * d.y100 : Nat)
  let dx := max (max (x0 - cx) (cx - x1)) 0
  let dy := max (max (y0 - cy) (cy - y1)) 0
  dx * dx + dy * dy

/-- Effect of one opaque `arc`/`fill` on one pixel: fully covered squares get
the disk colour, untouched squares keep their colour, partially covered
squares become a blend. -/
def paintDisk (d : Disk) (i j : Nat) (c : PixelColor) : PixelColor :=
  let r : Int := (128 * d.r100 : Nat)
  if diskMaxCornerSq d i j ≤ r * r then .pure d.zone
  else if r * r ≤ diskMinSq d i j then c
  else .blended

/-- The final colour of pixel `(i, j)` of the layout map: the GRASS base fill
(LayoutMap.tsx lines 26-27) overpainted by the 18 disks in paint order. -/
def layoutPixel (i j : Nat) : PixelColor :=
  layoutDisks.foldl (fun c d => paintDisk d i j c) (.pure .GRASS)

/-- Key order of the `for (const zone in ZONE_COLORS)` loop of
`getLayoutZone` (object-literal insertion order). -/
def zoneKeyOrder : List Zone := [.EMPTY, .PATH, .FLOWER, .GRASS, .BUSH, .TREE]

/-- The colour-matching loop of `getLayoutZone` (ProceduralTree.tsx lines
514-518): the first zone whose exact RGB triple equals the sampled pixel. -/
def matchZoneColor (rgb : Nat × Nat × Nat) : Option Zone :=
  zoneKeyOrder.findSome? (fun z => if zoneColor z = rgb then some z else none)

/-- Zone read back from a raster cell: a pure colour matches its own zone, a
blended pixel matches nothing (the loop falls through and returns null). -/
def pixelZone (c : PixelColor) : Option Zone :=
  match c with
  | .pure z => matchZoneColor (zoneColor z)
  | .blended => none

/-- `SPREAD` (ProceduralTree.tsx line 500). -/
def SPREAD : ℚ := 20

/-- `MAP_RES` (ProceduralTree.tsx line 499). -/
def MAP_RES : Nat := 128

/-- `getLayoutZone(x, z)` (ProceduralTree.tsx lines 504-519): map the world
coordinate to `[0,1]²`, return null outside, otherwise sample the raster cell
and match its colour against `ZONE_COLORS`.  Every float operation here is
exact for the values produced by the sampler, so ℚ is bit-faithful. -/
def getLayoutZone (x z : ℚ) : Option Zone :=
  let u := x / SPREAD + 1/2
  let v := z / SPREAD + 1/2
  if u < 0 ∨ u > 1 ∨ v < 0 ∨ v > 1 then none
  else
    let mapX := (⌊u * (MAP_RES : ℚ)⌋).toNat
    let mapY := (⌊v * (MAP_RES : ℚ)⌋).toNat
    pixelZone (layoutPixel mapX mapY)

/-- An accepted `{x, z}` world position. -/
structure Pos where
  x : ℚ
  z : ℚ
deriving DecidableEq, Repr

/-- Result of one `placeObjects` call: the accepted positions, the number of
loop iterations executed, and the final shared RNG state. -/
structure PlaceResult where
  positions : List Pos
  attempts : Nat
  state : RngState
deriving DecidableEq, Repr

/-- `(rng() - 0.5) * SPREAD` for a raw 32-bit draw `k` — exact in IEEE
double, hence modelled exactly in ℚ. -/
def worldCoord (k : Nat) : ℚ := (randValue k - 1/2) * SPREAD

/-- The `while (positions.length < count && attempts < 10000)` loop of
`placeObjects` (ProceduralTree.tsx lines 521-540), with the remaining attempt
budget as structural fuel.  Each iteration draws x then z, accepts when the
zone matches and (for `minDistance > 0`) the candidate is at least
`minDistance` away from every already-accepted position of this call. -/
def placeLoop (count : Nat) (targetZone : Zone) (minDistance : ℚ) :
    Nat → RngState → List Pos → Nat → PlaceResult
  | 0, s, acc, attempts => ⟨acc, attempts, s⟩
  | fuel + 1, s, acc, attempts =>
    if acc.length < count then
      let (s1, kx) := mulberry32 s
      let (s2, kz) := mulberry32 s1
      let x := worldCoord kx
      let z := worldCoord kz
      let acc' :=
        if getLayoutZone x z = some targetZone then
          if 0 < minDistance then
            if acc.all (fun p =>
                let dx := x - p.x
                let dz := z - p.z
                !decide (dx * dx + dz * dz < minDistance * minDistance)) then
              acc ++ [⟨x, z⟩]
            else acc
          else acc ++ [⟨x, z⟩]
        else acc
      placeLoop count targetZone minDistance fuel s2 acc' (attempts + 1)
    else ⟨acc, attempts, s⟩

/-- `placeObjects(count, targetZone, minDistance)` with explicit RNG state. -/
def placeObjects (s : RngState) (count : Nat) (targetZone : Zone)
    (minDistance : ℚ) : PlaceResult :=
  placeLoop count targetZone minDistance 10000 s [] 0

/-- `FIXED_SEED` (ProceduralTree.tsx line 443). -/
def FIXED_SEED : Nat := 12345

/-- The record produced by the layout `useMemo` (ProceduralTree.tsx lines
543-552). -/
structure Layout where
  treePositions : List Pos
  pinePositions : List Pos
  bushPositions : List Pos
  flowerPositions : List Pos
  rockPositions : List Pos
  grassPositions : List Pos
  allTreePositions : List Pos
deriving DecidableEq, Repr

/-- The layout computation (ProceduralTree.tsx lines 498-553): one shared
`mulberry32(FIXED_SEED)` stream consumed by five `placeObjects` calls in
source order (trees+pines, bushes, flowers, rocks, grass).
`grassPatchCount` is the device-dependent grass request (15/25/40). -/
def layout (grassPatchCount : Nat) : Layout :=
  let s0 : RngState := ⟨FIXED_SEED⟩
  let r1 := placeObjects s0 5 .TREE 4
  let treeAndPinePositions := r1.positions
  let r2 := placeObjects r1.state 5 .BUSH (3/2)
  let r3 := placeObjects r2.state 8 .FLOWER 1
  let r4 := placeObjects r3.state 2 .EMPTY 2
  let r5 := placeObjects r4.state grassPatchCount .GRASS (1/2)
  { treePositions := treeAndPinePositions.take 2
    pinePositions := treeAndPinePositions.drop 2
    bushPositions := r2.positions
    flowerPositions := r3.positions
    rockPositions := r4.positions
    grassPositions := r5.positions
    allTreePositions := treeAndPinePositions }

/-! ## Integer-only mirror of the sampling loop

Every float on the sampling path is an exact dyadic rational, so the loop is
provably equal to an integer computation on the raw 32-bit draws; the lemmas
further below establish the equality, and the concrete-run theorems evaluate
the integer form (the ℚ form is the specification, the integer form the
evaluation vehicle). -/

/-- `max` on `Nat` written with a plain comparison (kept primitive so that
kernel evaluation of the concrete runs stays cheap). -/
def nmax (a b : Nat) : Nat := if a ≤ b then b else a

/-- `Nat`-only version of `diskMaxCornerSq ≤ r²`: for the square
`[x0,x1]×[y0,y1]` the farthest-corner x-offset from `cx` is
`max (x1-cx) (cx-x0)` (truncated subtraction: whichever side is farther;
the other term is 0 or smaller). -/
def diskCoversN (d : Disk) (i j : Nat) : Bool :=
  let x0 := 100 * i
  let x1 := 100 * i + 100
  let y0 := 100 * j
  let y1 := 100 * j + 100
  let cx := 128 * d.x100
  let cy := 128 * d.y100
  let r := 128 * d.r100
  let dx := nmax (x1 - cx) (cx - x0)
  let dy := nmax (y1 - cy) (cy - y0)
  decide (dx * dx + dy * dy ≤ r * r)

/-- `Nat`-only version of `r² ≤ diskMinSq`: the nearest-point x-offset is
`(x0-cx) + (cx-x1)` in truncated subtraction (at most one term is nonzero,
and both vanish when `cx` lies inside `[x0,x1]`). -/
def diskMissesN (d : Disk) (i j : Nat) : Bool :=
  let x0 := 100 * i
  let x1 := 100 * i + 100
  let y0 := 100 * j
  let y1 := 100 * j + 100
  let cx := 128 * d.x100
  let cy := 128 * d.y100
  let r := 128 * d.r100
  let dx := (x0 - cx) + (cx - x1)
  let dy := (y0 - cy) + (cy - y1)
  decide (r * r ≤ dx * dx + dy * dy)

/-- `paintDisk` over the `Nat` tests (proved equal to `paintDisk` below). -/
def paintDiskN (d : Disk) (i j : Nat) (c : PixelColor) : PixelColor :=
  if diskCoversN d i j then .pure d.zone
  else if diskMissesN d i j then c
  else .blended

/-- The fold step of the `Nat` painting pass. -/
def paintStep (i j : Nat) (c : PixelColor) (d : Disk) : PixelColor :=
  paintDiskN d i j c

/-- `layoutPixel` over the `Nat` tests. -/
def layoutPixelN (i j : Nat) : PixelColor :=
  layoutDisks.foldl (paintStep i j) (.pure .GRASS)

/-- The zone test of the sampling loop, on raster indices. -/
def zoneTest (z : Zone) (i j : Nat) : Bool :=
  decide (pixelZone (layoutPixelN i j) = some z)

/-- Cheap test for `zoneTest .EMPTY`: only the two EMPTY disks (painted
last) can leave a pixel with the exact EMPTY colour. -/
def emptyHit (i j : Nat) : Bool :=
  diskCoversN ⟨55, 52, 3, .EMPTY⟩ i j ||
    (diskMissesN ⟨55, 52, 3, .EMPTY⟩ i j && diskCoversN ⟨50, 50, 4, .EMPTY⟩ i j)

/-- `diskMissesN` with the pixel bounds passed in (definitionally equal to
`diskMissesN d i j` at `x0 = 100 i`, `x1 = 100 i + 100`, …); sharing the
bounds across the disks of one pixel keeps kernel evaluation cheap. -/
def missB (d : Disk) (x0 x1 y0 y1 : Nat) : Bool :=
  let cx := 128 * d.x100
  let cy := 128 * d.y100
  let r := 128 * d.r100
  let dx := (x0 - cx) + (cx - x1)
  let dy := (y0 - cy) + (cy - y1)
  decide (r * r ≤ dx * dx + dy * dy)

/-- `diskCoversN` with the pixel bounds passed in. -/
def coverB (d : Disk) (x0 x1 y0 y1 : Nat) : Bool :=
  let cx := 128 * d.x100
  let cy := 128 * d.y100
  let r := 128 * d.r100
  let dx := nmax (x1 - cx) (cx - x0)
  let dy := nmax (y1 - cy) (cy - y0)
  decide (dx * dx + dy * dy ≤ r * r)

/-- Backwards scan of the painted disks (the list is walked in reverse paint
order): the first disk that is not missed decides the pixel — if it covers
the pixel the colour is that disk's zone, otherwise the pixel is blended; if
every disk misses, the base `GRASS` fill shows. -/
def zScan (z : Zone) (x0 x1 y0 y1 : Nat) : List Disk → Bool
  | [] => decide (Zone.GRASS = z)
  | d :: ds =>
    if missB d x0 x1 y0 y1 then zScan z x0 x1 y0 y1 ds
    else if coverB d x0 x1 y0 y1 then decide (d.zone = z)
    else false

/-- `layoutDisks` in reverse paint order. -/
def revDisks : List Disk :=
  [ ⟨55, 52, 3, .EMPTY⟩, ⟨50, 50, 4, .EMPTY⟩,
    ⟨30, 90, 4, .FLOWER⟩, ⟨90, 50, 4, .FLOWER⟩, ⟨18, 10, 4, .FLOWER⟩,
    ⟨60, 45, 4, .FLOWER⟩, ⟨35, 65, 4, .FLOWER⟩,
    ⟨60, 90, 4, .BUSH⟩, ⟨80, 60, 4, .BUSH⟩, ⟨15, 60, 4, .BUSH⟩,
    ⟨70, 20, 4, .BUSH⟩, ⟨35, 45, 4, .BUSH⟩,
    ⟨50, 15, 5, .TREE⟩, ⟨50, 85, 5, .TREE⟩, ⟨25, 75, 5, .TREE⟩,
    ⟨75, 80, 5, .TREE⟩, ⟨80, 30, 5, .TREE⟩, ⟨20, 25, 5, .TREE⟩ ]

/-- Scan form of `zoneTest` (proved equal to it below). -/
def zoneTestR (z : Zone) (i j : Nat) : Bool :=
  zScan z (100 * i) (100 * i + 100) (100 * j) (100 * j + 100) revDisks

/-- Scan form of `emptyHit`: test the (usual) misses first. -/
def emptyHitR (i j : Nat) : Bool :=
  let x0 := 100 * i
  let x1 := 100 * i + 100
  let y0 := 100 * j
  let y1 := 100 * j + 100
  if missB ⟨55, 52, 3, .EMPTY⟩ x0 x1 y0 y1 then
    if missB ⟨50, 50, 4, .EMPTY⟩ x0 x1 y0 y1 then false
    else coverB ⟨50, 50, 4, .EMPTY⟩ x0 x1 y0 y1
  else coverB ⟨55, 52, 3, .EMPTY⟩ x0 x1 y0 y1

/-- `mulberry32` on a bare `Nat` state. -/
def mulberryN (a : Nat) : Nat × Nat :=
  ((mulberry32 ⟨a⟩).1.a, (mulberry32 ⟨a⟩).2)

/-- Integer form of the squared-distance test: with `x = worldCoord k`,
`(x-x')² + (z-z')² < minD²` iff `25·((k-k')² + (l-l')²) < minD²·2^60`. -/
def sepScaledSq (kx kz px pz : Nat) : Int :=
  25 * (((kx : Int) - px) * ((kx : Int) - px) +
        ((kz : Int) - pz) * ((kz : Int) - pz))

/-- `placeLoop` over raw draws: positions are kept as raw 32-bit pairs, the
zone test is an arbitrary raster-index predicate, and the separation
threshold is the integer `T = minD²·2^60`.  The degenerate `if` before the
recursive call has identical branches (`ite_self`); it only forces the
carried state and attempt counter during kernel evaluation. -/
def placeFastLoop (count : Nat) (test : Nat → Nat → Bool) (T : Int) :
    Nat → Nat → List (Nat × Nat) → Nat → List (Nat × Nat) × Nat × Nat
  | 0, a, acc, attempts => (acc, attempts, a)
  | fuel + 1, a, acc, attempts =>
    if acc.length < count then
      let (a1, kx) := mulberryN a
      let (a2, kz) := mulberryN a1
      let acc' :=
        if test (kx / 33554432) (kz / 33554432) then
          if acc.all (fun p => !decide (sepScaledSq kx kz p.1 p.2 < T)) then
            acc ++ [(kx, kz)]
          else acc
        else acc
      let att' := attempts + 1
      if a2 + att' = 0 then placeFastLoop count test T fuel a2 acc' att'
      else placeFastLoop count test T fuel a2 acc' att'
    else (acc, attempts, a)

/-- Raw-draw pair to world position. -/
def toPos (p : Nat × Nat) : Pos := ⟨worldCoord p.1, worldCoord p.2⟩

/-! ## The per-frame LOD controllers -/

/-- The per-mesh state the LOD controllers write each frame: the mesh's
`visible` flag and its active instance `count`. -/
structure BatchView where
  visible : Bool
  count : Nat
deriving DecidableEq, Repr

/-- Bush density tiers (part_004 lines 296-307): full below `LOD0_DIST = 6`,
40% below `LOD1_DIST = 12`, 10% below `LOD2_DIST = 18` and 10% beyond (the
comment defers the final fade to shader dithering).  The decimal factors
`0.4` and `0.1` are read as the exact rationals `4/10` and `1/10`. -/
def bushLODCount (fullCount : Nat) (dist : ℚ) : Nat :=
  if dist < 6 then fullCount
  else if dist < 12 then Nat.floor ((fullCount : ℚ) * (4/10))
  else if dist < 18 then Nat.floor ((fullCount : ℚ) * (1/10))
  else Nat.floor ((fullCount : ℚ) * (1/10))

/-- One bush batch's per-frame update (part_004 lines 284-307): frustum
rejection first (visible off, count untouched), then the hard cull at
`CULL_DIST = 22`, then visible with the density tier count. -/
def bushUpdate (inFrustum : Bool) (dist : ℚ) (fullCount : Nat)
    (prev : BatchView) : BatchView :=
  if !inFrustum then { prev with visible := false }
  else if dist > 22 then { prev with visible := false }
  else { visible := true, count := bushLODCount fullCount dist }

/-- Tree density tiers (ProceduralRock.tsx createTrees update, lines
628-651): full below `LOD0_DIST = 12`, 60% below `LOD1_DIST = 18`, 40%
beyond.  There is no cull branch. -/
def treeLODCount (fullCount : Nat) (dist : ℚ) : Nat :=
  if dist < 12 then fullCount
  else if dist < 18 then Nat.floor ((fullCount : ℚ) * (6/10))
  else Nat.floor ((fullCount : ℚ) * (4/10))

/-- One tree batch's per-frame update (ProceduralRock.tsx lines 631-651):
frustum rejection first, otherwise visible with the density tier count. -/
def treeUpdate (inFrustum : Bool) (dist : ℚ) (fullCount : Nat)
    (prev : BatchView) : BatchView :=
  if !inFrustum then { prev with visible := false }
  else { visible := true, count := treeLODCount fullCount dist }

/-- The bush controller's tier fraction as a step function of distance. -/
def bushTierFraction (dist : ℚ) : ℚ :=
  if dist < 6 then 1
  else if dist < 12 then 4/10
  else 1/10

/-- The tree controller's tier fraction as a step function of distance. -/
def treeTierFraction (dist : ℚ) : ℚ :=
  if dist < 12 then 1
  else if dist < 18 then 6/10
  else 4/10

/-- The two shared uniforms the grass update writes. -/
structure GrassUniforms where
  uTime : ℚ
  uCameraPosition : ℚ × ℚ × ℚ
deriving DecidableEq, Repr

/-- `createGrass`'s per-frame update (part_009 lines 380-383): it only
refreshes `uTime` and `uCameraPosition`; no batch visibility or instance
count is touched. -/
def grassUpdate (time : ℚ) (cameraPosition : ℚ × ℚ × ℚ)
    (_u : GrassUniforms) (batch : BatchView) : GrassUniforms × BatchView :=
  ({ uTime := time, uCameraPosition := cameraPosition }, batch)

/-! ## The family builders' effect on the ambient `Math.random` -/

/-- The ambient global state the builders touch: `Math.random`, modelled as
the stream of values its successive calls return. -/
structure GlobalEnv where
  mathRandom : Nat → ℚ

/-- The RNG state after `n` draws from `mulberry32(seed)`. -/
def rngStateN (seed : Nat) : Nat → RngState
  | 0 => ⟨seed⟩
  | n + 1 => (mulberry32 (rngStateN seed n)).1

/-- The value stream of `mulberry32(seed)`: what the overridden `Math.random`
returns on its `n`-th call. -/
def mulberrySeq (seed : Nat) (n : Nat) : ℚ :=
  randValue (mulberry32 (rngStateN seed n)).2

/-- A family's returned handles.  `none` models the inert
`let update = () => {}` / `let cleanup = () => {}` defaults that survive when
construction throws before installing the real closures. -/
structure FamilyHandles (υ κ : Type) where
  update : Option υ
  cleanup : Option κ

/-- The builder skeleton shared by every family that overrides `Math.random`
(createBushes part_004 lines 90-98 and 319-325; createGrass part_009 lines
131-137 and 402-406; likewise createTrees, createFlowers, createPines,
createBalloons): save `Math.random`, install the seeded generator, run the
construction body under it; a thrown error is caught at the family boundary
(and logged — the log is not modelled), leaving the inert defaults;
`finally` restores the original `Math.random`.  `createRocks` is the one
builder that never installs an override — it is modelled separately by
`createRocks` below. -/
def createFamily {υ κ : Type} (env : GlobalEnv) (seed : Nat)
    (body : (Nat → ℚ) → Except String (υ × κ)) :
    FamilyHandles υ κ × GlobalEnv :=
  let originalRandom := env.mathRandom
  let overridden : GlobalEnv := { mathRandom := mulberrySeq seed }
  let handles : FamilyHandles υ κ :=
    match body overridden.mathRandom with
    | .ok (u, c) => { update := some u, cleanup := some c }
    | .error _ => { update := none, cleanup := none }
  (handles, { mathRandom := originalRandom })

/-- Build the families in order, threading the ambient environment through
each `createFamily` call. -/
def buildFamilies {υ κ : Type} (env : GlobalEnv) :
    List (Nat × ((Nat → ℚ) → Except String (υ × κ))) →
      List (FamilyHandles υ κ) × GlobalEnv
  | [] => ([], env)
  | (seed, body) :: rest =>
    let fst := createFamily env seed body
    let rest' := buildFamilies fst.2 rest
    (fst.1 :: rest'.1, rest'.2)

/-- The world build's seeded part: the layout placement plus the
construction of every family that installs the seeded override.  The rock
family, which never overrides `Math.random`, is modelled separately by
`createRocks` below. -/
def buildWorld {υ κ : Type} (env : GlobalEnv) (grassPatchCount : Nat)
    (builders : List (Nat × ((Nat → ℚ) → Except String (υ × κ)))) :
    Layout × List (FamilyHandles υ κ) × GlobalEnv :=
  (layout grassPatchCount, buildFamilies env builders)

/-- One rock's instance transform (ProceduralRock.tsx lines 162-188): the
scale components, and the rotation — `rotX`/`rotZ` in radians, `rotYPi` in
units of π (the source computes `Math.random() * Math.PI * 2`; the
irrational factor π is kept symbolic).  Decimal constants are read as exact
rationals. -/
structure RockTransform where
  scaleX : ℚ
  scaleY : ℚ
  scaleZ : ℚ
  rotX : ℚ
  rotYPi : ℚ
  rotZ : ℚ
deriving DecidableEq, Repr

/-- The jitter of the `i`-th rock: seven consecutive draws from the ambient
`Math.random` stream, in source order (ProceduralRock.tsx lines 165-185). -/
def rockTransform (random : Nat → ℚ) (i : Nat) : RockTransform :=
  let baseScale := 2 + random (7 * i) * (3/2)
  let stretchX := 1 + (random (7 * i + 1) - 1/2) * (8/10)
  let stretchY := 8/10 + (random (7 * i + 2) - 1/2) * (6/10)
  let stretchZ := 1 + (random (7 * i + 3) - 1/2) * (8/10)
  { scaleX := baseScale * stretchX
    scaleY := baseScale * stretchY
    scaleZ := baseScale * stretchZ
    rotX := (random (7 * i + 4) - 1/2) * (2/10)
    rotYPi := random (7 * i + 5) * 2
    rotZ := (random (7 * i + 6) - 1/2) * (2/10) }

/-- The instance transforms of a rock batch of `count = positions.length`
rocks. -/
def rockTransforms (random : Nat → ℚ) (count : Nat) : List RockTransform :=
  (List.range count).map (rockTransform random)

/-- `createRocks` (ProceduralRock.tsx lines 12-190): unlike every other
builder it saves and overrides nothing — the per-instance scale and rotation
jitter is drawn straight from the ambient, unseeded `Math.random`, and the
ambient generator is left in place. -/
def createRocks (env : GlobalEnv) (count : Nat) :
    List RockTransform × GlobalEnv :=
  (rockTransforms env.mathRandom count, env)

/-! ## Equivalence of the `Nat` raster tests with the geometric ones -/

theorem nmax_sq_cast (x0 x1 c : Nat) (h : x0 ≤ x1) :
    ((nmax (x1 - c) (c - x0) : Nat) : Int) * ((nmax (x1 - c) (c - x0) : Nat) : Int) =
      max (((x0 : Int) - (c : Int)) * ((x0 : Int) - (c : Int)))
        (((x1 : Int) - (c : Int)) * ((x1 : Int) - (c : Int))) := by
  rcases le_total c x0 with hc | hc
  · have hmax : nmax (x1 - c) (c - x0) = x1 - c := by
      unfold nmax; split_ifs <;> omega
    have h2 : ((x1 - c : Nat) : Int) = (x1 : Int) - c := by omega
    rw [hmax, h2, max_eq_right]
    exact mul_self_le_mul_self (by omega) (by omega)
  · rcases le_total c x1 with hc2 | hc2
    · unfold nmax
      split_ifs with hif
      · have h2 : ((c - x0 : Nat) : Int) = (c : Int) - x0 := by omega
        rw [h2, max_eq_left]
        · ring
        · have := mul_self_le_mul_self (a := (x1 : Int) - c) (b := (c : Int) - x0)
            (by omega) (by omega)
          nlinarith
      · have h2 : ((x1 - c : Nat) : Int) = (x1 : Int) - c := by omega
        rw [h2, max_eq_right]
        have := mul_self_le_mul_self (a := (c : Int) - x0) (b := (x1 : Int) - c)
          (by omega) (by omega)
        nlinarith
    · have hmax : nmax (x1 - c) (c - x0) = c - x0 := by
        unfold nmax; split_ifs <;> omega
      have h2 : ((c - x0 : Nat) : Int) = (c : Int) - x0 := by omega
      rw [hmax, h2, max_eq_left]
      · ring
      · have := mul_self_le_mul_self (a := (c : Int) - x1) (b := (c : Int) - x0)
          (by omega) (by omega)
        nlinarith

theorem nmin_cast (x0 x1 c : Nat) (h : x0 ≤ x1) :
    (((x0 - c) + (c - x1) : Nat) : Int) =
      max (max ((x0 : Int) - c) ((c : Int) - x1)) 0 := by
  rw [Int.max_def, Int.max_def]
  split_ifs <;> omega


theorem diskCoversN_iff (d : Disk) (i j : Nat) :
    diskCoversN d i j = true ↔
      diskMaxCornerSq d i j ≤
        ((128 * d.r100 : Nat) : Int) * ((128 * d.r100 : Nat) : Int) := by
  unfold diskCoversN diskMaxCornerSq
  rw [decide_eq_true_eq, ← Nat.cast_le (α := Int)]
  push_cast [nmax_sq_cast _ _ _ (show 100 * i ≤ 100 * i + 100 by omega),
    nmax_sq_cast _ _ _ (show 100 * j ≤ 100 * j + 100 by omega)]
  exact Iff.rfl

theorem diskMissesN_iff (d : Disk) (i j : Nat) :
    diskMissesN d i j = true ↔
      ((128 * d.r100 : Nat) : Int) * ((128 * d.r100 : Nat) : Int) ≤
        diskMinSq d i j := by
  unfold diskMissesN diskMinSq
  rw [decide_eq_true_eq, ← Nat.cast_le (α := Int)]
  push_cast [nmin_cast _ _ _ (show 100 * i ≤ 100 * i + 100 by omega),
    nmin_cast _ _ _ (show 100 * j ≤ 100 * j + 100 by omega)]
  exact Iff.rfl

theorem paintDiskN_eq (d : Disk) (i j : Nat) (c : PixelColor) :
    paintDiskN d i j c = paintDisk d i j c := by
  unfold paintDiskN paintDisk
  rcases hcov : diskCoversN d i j with _ | _
  · rcases hmiss : diskMissesN d i j with _ | _
    · rw [if_neg (by simp [hcov]), if_neg (by simp [hmiss]),
        if_neg (fun hc => by simp [(diskCoversN_iff d i j).mpr hc] at hcov),
        if_neg (fun hm => by simp [(diskMissesN_iff d i j).mpr hm] at hmiss)]
    · rw [if_neg (by simp [hcov]), if_pos (by simp [hmiss]),
        if_neg (fun hc => by simp [(diskCoversN_iff d i j).mpr hc] at hcov),
        if_pos ((diskMissesN_iff d i j).mp hmiss)]
  · rw [if_pos (by simp [hcov]), if_pos ((diskCoversN_iff d i j).mp hcov)]

theorem layoutPixelN_eq (i j : Nat) : layoutPixelN i j = layoutPixel i j := by
  unfold layoutPixelN layoutPixel
  congr 1
  funext c d
  unfold paintStep
  exact paintDiskN_eq d i j c



theorem pixelZone_pure (z : Zone) : pixelZone (.pure z) = some z := by
  cases z <;> decide

theorem pixelZone_eq_empty_iff (c : PixelColor) :
    pixelZone c = some .EMPTY ↔ c = .pure .EMPTY := by
  cases c with
  | pure z => cases z <;> decide
  | blended => decide

theorem foldl_paint_ne_empty (L : List Disk) (i j : Nat) :
    ∀ (c : PixelColor), (∀ d ∈ L, d.zone ≠ .EMPTY) → c ≠ .pure .EMPTY →
      L.foldl (paintStep i j) c ≠ .pure .EMPTY := by
  induction L with
  | nil => exact fun c _ hc => hc
  | cons d rest ih =>
    intro c hL hc
    refine ih _ (fun e he => hL e (List.mem_cons_of_mem d he)) ?_
    simp only [paintStep, paintDiskN]
    split_ifs with h1 h2
    · intro hcon
      exact hL d (List.mem_cons_self d rest) (by injection hcon)
    · exact hc
    · intro hcon
      cases hcon

/-- Folding two elements, unrolled. -/
theorem foldl_pair {α β : Type} (f : α → β → α) (c : α) (a b : β) :
    List.foldl f c [a, b] = f (f c a) b := rfl

/-- The first 16 painted disks (everything before the two EMPTY disks). -/
def first16Disks : List Disk :=
  [ ⟨20, 25, 5, .TREE⟩, ⟨80, 30, 5, .TREE⟩, ⟨75, 80, 5, .TREE⟩,
    ⟨25, 75, 5, .TREE⟩, ⟨50, 85, 5, .TREE⟩, ⟨50, 15, 5, .TREE⟩,
    ⟨35, 45, 4, .BUSH⟩, ⟨70, 20, 4, .BUSH⟩, ⟨15, 60, 4, .BUSH⟩,
    ⟨80, 60, 4, .BUSH⟩, ⟨60, 90, 4, .BUSH⟩,
    ⟨35, 65, 4, .FLOWER⟩, ⟨60, 45, 4, .FLOWER⟩, ⟨18, 10, 4, .FLOWER⟩,
    ⟨90, 50, 4, .FLOWER⟩, ⟨30, 90, 4, .FLOWER⟩ ]

theorem layoutDisks_eq_append :
    layoutDisks = first16Disks ++ [⟨50, 50, 4, .EMPTY⟩, ⟨55, 52, 3, .EMPTY⟩] := rfl

/-- The pixel colour after the first 16 disks. -/
def rest16 (i j : Nat) : PixelColor :=
  first16Disks.foldl (paintStep i j) (.pure .GRASS)

theorem layoutPixelN_split (i j : Nat) :
    layoutPixelN i j =
      paintStep i j (paintStep i j (rest16 i j) ⟨50, 50, 4, .EMPTY⟩)
        ⟨55, 52, 3, .EMPTY⟩ := by
  unfold layoutPixelN
  rw [layoutDisks_eq_append, List.foldl_append,
    show List.foldl (paintStep i j) (.pure .GRASS) first16Disks = rest16 i j from rfl,
    foldl_pair]

theorem rest16_ne_empty (i j : Nat) : rest16 i j ≠ .pure .EMPTY :=
  foldl_paint_ne_empty first16Disks i j (.pure .GRASS) (by decide) (by decide)

theorem emptyTail (i j : Nat) (c : PixelColor) (hc : c ≠ .pure .EMPTY) :
    pixelZone (paintStep i j (paintStep i j c ⟨50, 50, 4, .EMPTY⟩)
        ⟨55, 52, 3, .EMPTY⟩) = some .EMPTY ↔
      emptyHit i j = true := by
  unfold emptyHit paintStep paintDiskN
  rcases h18c : diskCoversN ⟨55, 52, 3, .EMPTY⟩ i j with _ | _
  · rcases h18m : diskMissesN ⟨55, 52, 3, .EMPTY⟩ i j with _ | _
    · simp only [Bool.false_eq_true, if_false, Bool.false_or, Bool.false_and]
      rw [pixelZone_eq_empty_iff]
      constructor
      · intro hcon; cases hcon
      · intro hcon; cases hcon
    · simp only [Bool.false_eq_true, if_false, if_true, Bool.false_or,
        Bool.true_and]
      rcases h17c : diskCoversN ⟨50, 50, 4, .EMPTY⟩ i j with _ | _
      · simp only [Bool.false_eq_true, if_false]
        rcases h17m : diskMissesN ⟨50, 50, 4, .EMPTY⟩ i j with _ | _
        · simp only [Bool.false_eq_true, if_false]
          rw [pixelZone_eq_empty_iff]
          constructor
          · intro hcon; cases hcon
          · intro hcon; cases hcon
        · simp only [if_true]
          rw [pixelZone_eq_empty_iff]
          constructor
          · intro hcon; exact absurd hcon hc
          · intro hcon; cases hcon
      · simp only [if_true]
        rw [pixelZone_eq_empty_iff]
        constructor
        · intro _; trivial
        · intro _; rfl
  · simp only [if_true, Bool.true_or]
    rw [pixelZone_eq_empty_iff]
    constructor
    · intro _; trivial
    · intro _; rfl

theorem emptyHit_eq_zoneTest (i j : Nat) :
    emptyHit i j = zoneTest .EMPTY i j := by
  rw [Bool.eq_iff_iff, zoneTest, decide_eq_true_eq, layoutPixelN_split]
  rw [Iff.comm]
  exact emptyTail i j (rest16 i j) (rest16_ne_empty i j)

/-- On one axis the farthest offset exceeds the nearest offset by at least
half the pixel width. -/
theorem axis_gap (x0 x1 c : Nat) (h : x0 + 100 = x1) :
    (x0 - c) + (c - x1) + 50 ≤ nmax (x1 - c) (c - x0) := by
  unfold nmax
  split <;> omega

/-- A pixel square is never simultaneously inside and outside a disk. -/
theorem miss_imp_not_cover (d : Disk) (i j : Nat)
    (h : diskMissesN d i j = true) : diskCoversN d i j = false := by
  rcases hcov : diskCoversN d i j with _ | _
  · rfl
  · exfalso
    unfold diskCoversN at hcov
    unfold diskMissesN at h
    simp only [decide_eq_true_eq] at hcov h
    have hx := axis_gap (100 * i) (100 * i + 100) (128 * d.x100) rfl
    have hy := axis_gap (100 * j) (100 * j + 100) (128 * d.y100) rfl
    nlinarith [Nat.mul_le_mul hx hx, Nat.mul_le_mul hy hy]

theorem missB_eq (d : Disk) (i j : Nat) :
    missB d (100 * i) (100 * i + 100) (100 * j) (100 * j + 100) =
      diskMissesN d i j := rfl

theorem coverB_eq (d : Disk) (i j : Nat) :
    coverB d (100 * i) (100 * i + 100) (100 * j) (100 * j + 100) =
      diskCoversN d i j := rfl

theorem pixelZone_eq_some_iff (c : PixelColor) (z : Zone) :
    pixelZone c = some z ↔ c = .pure z := by
  cases c with
  | pure w => cases w <;> cases z <;> decide
  | blended => cases z <;> decide

/-- The backwards scan over a reversed disk list decides whether the forward
painting fold ends on the pure colour of zone `z`. -/
theorem zScan_reverse (z : Zone) (i j : Nat) :
    ∀ R : List Disk,
      (zScan z (100 * i) (100 * i + 100) (100 * j) (100 * j + 100) R = true ↔
        R.reverse.foldl (paintStep i j) (.pure .GRASS) = .pure z) := by
  intro R
  induction R with
  | nil => simp [zScan]
  | cons d R' ih =>
    rw [List.reverse_cons, List.foldl_append, List.foldl_cons, List.foldl_nil]
    simp only [zScan, missB_eq, coverB_eq, paintStep, paintDiskN]
    rcases Bool.eq_false_or_eq_true (diskMissesN d i j) with hm | hm
    · have hc := miss_imp_not_cover d i j hm
      simp only [hm, hc, Bool.false_eq_true, if_false, eq_self_iff_true,
        if_true]
      exact ih
    · rcases Bool.eq_false_or_eq_true (diskCoversN d i j) with hc | hc
      · simp [hm, hc]
      · simp [hm, hc]

theorem zoneTestR_eq (z : Zone) (i j : Nat) :
    zoneTestR z i j = zoneTest z i j := by
  rw [Bool.eq_iff_iff, zoneTestR, zoneTest, decide_eq_true_eq,
    pixelZone_eq_some_iff, zScan_reverse z i j revDisks,
    show revDisks.reverse = layoutDisks from rfl]
  simp only [layoutPixelN]

theorem zoneTest_eq_scan (z : Zone) : zoneTest z = zoneTestR z :=
  funext fun i => funext fun j => (zoneTestR_eq z i j).symm

theorem emptyHitR_eq (i j : Nat) : emptyHitR i j = emptyHit i j := by
  show (if diskMissesN ⟨55, 52, 3, .EMPTY⟩ i j then
      if diskMissesN ⟨50, 50, 4, .EMPTY⟩ i j then false
      else diskCoversN ⟨50, 50, 4, .EMPTY⟩ i j
    else diskCoversN ⟨55, 52, 3, .EMPTY⟩ i j) = emptyHit i j
  unfold emptyHit
  rcases h18m : diskMissesN ⟨55, 52, 3, .EMPTY⟩ i j with _ | _
  · simp [h18m]
  · have h18c := miss_imp_not_cover ⟨55, 52, 3, .EMPTY⟩ i j h18m
    rcases h17m : diskMissesN ⟨50, 50, 4, .EMPTY⟩ i j with _ | _
    · simp [h18m, h18c, h17m]
    · have h17c := miss_imp_not_cover ⟨50, 50, 4, .EMPTY⟩ i j h17m
      simp [h18m, h18c, h17m, h17c]

/-! ## Raw-draw form of the sampling arithmetic -/

theorem mulberry32_out_lt (s : RngState) : (mulberry32 s).2 < 2 ^ 32 := by
  have hmod : ∀ n : Nat, n % M32 < 2 ^ 32 := by
    intro n
    have h := Nat.mod_lt n (show 0 < M32 by norm_num [M32])
    calc n % M32 < M32 := h
      _ ≤ 2 ^ 32 := by norm_num [M32]
  have hshift : ∀ n k : Nat, n >>> k ≤ n := by
    intro n k
    rw [Nat.shiftRight_eq_div_pow]
    exact Nat.div_le_self _ _
  simp only [mulberry32, imul]
  refine Nat.xor_lt_two_pow (Nat.xor_lt_two_pow (hmod _) (hmod _)) ?_
  exact lt_of_le_of_lt (hshift _ _) (Nat.xor_lt_two_pow (hmod _) (hmod _))

theorem getLayoutZone_worldCoord (k l : Nat) (hk : k < 2 ^ 32)
    (hl : l < 2 ^ 32) :
    getLayoutZone (worldCoord k) (worldCoord l) =
      pixelZone (layoutPixelN (k / 33554432) (l / 33554432)) := by
  have hcoord : ∀ m : Nat, m < 2 ^ 32 →
      worldCoord m / SPREAD + 1/2 = (m : ℚ) / 4294967296 := by
    intro m _
    unfold worldCoord randValue SPREAD
    ring
  have hnonneg : ∀ m : Nat, (0 : ℚ) ≤ (m : ℚ) / 4294967296 := fun m =>
    div_nonneg (Nat.cast_nonneg m) (by norm_num)
  have hle : ∀ m : Nat, m < 2 ^ 32 → ((m : ℚ) / 4294967296 : ℚ) ≤ 1 := by
    intro m hm
    rw [div_le_one (by norm_num)]
    have : m ≤ 4294967296 := by omega
    exact_mod_cast this
  have hfloor : ∀ m : Nat, ((⌊(m : ℚ) / 4294967296 * (MAP_RES : ℚ)⌋).toNat) =
      m / 33554432 := by
    intro m
    have : (m : ℚ) / 4294967296 * (MAP_RES : ℚ) = (m : ℚ) / ((33554432 : ℕ) : ℚ) := by
      norm_num [MAP_RES]
      ring
    rw [this, Int.floor_toNat, Nat.floor_div_nat, Nat.floor_natCast]
  unfold getLayoutZone
  rw [hcoord k hk, hcoord l hl]
  rw [if_neg ?hbounds]
  case hbounds =>
    push_neg
    exact ⟨hnonneg k, hle k hk, hnonneg l, hle l hl⟩
  rw [hfloor k, hfloor l, layoutPixelN_eq]

/-- The squared-distance comparison of the sampling loop, raw-draw form. -/
theorem sep_iff (kx kz px pz : Nat) (minD : ℚ) (T : Int)
    (hT : (T : ℚ) = minD * minD * 2 ^ 60) :
    ((worldCoord kx - worldCoord px) * (worldCoord kx - worldCoord px) +
      (worldCoord kz - worldCoord pz) * (worldCoord kz - worldCoord pz) <
        minD * minD) ↔
      sepScaledSq kx kz px pz < T := by
  have key : (worldCoord kx - worldCoord px) * (worldCoord kx - worldCoord px) +
      (worldCoord kz - worldCoord pz) * (worldCoord kz - worldCoord pz) =
      ((sepScaledSq kx kz px pz : Int) : ℚ) / 2 ^ 60 := by
    unfold sepScaledSq worldCoord randValue SPREAD
    push_cast
    ring
  rw [key, div_lt_iff₀ (by positivity), ← hT, Int.cast_lt]

/-! ## The sampling loop evaluates like its raw-draw mirror -/

theorem all_map_comp {α β : Type} (l : List α) (f : α → β) (p : β → Bool) :
    (l.map f).all p = l.all (p ∘ f) := by
  induction l with
  | nil => rfl
  | cons x xs ih => simp only [List.map_cons, List.all_cons, ih, Function.comp_apply]

theorem placeLoop_eq_fast (count : Nat) (z : Zone) (minD : ℚ) (T : Int)
    (hT : (T : ℚ) = minD * minD * 2 ^ 60) (hpos : 0 < minD) :
    ∀ (fuel a : Nat) (accR : List (Nat × Nat)) (att : Nat),
      placeLoop count z minD fuel ⟨a⟩ (accR.map toPos) att =
        ⟨((placeFastLoop count (zoneTest z) T fuel a accR att).1).map toPos,
         (placeFastLoop count (zoneTest z) T fuel a accR att).2.1,
         ⟨(placeFastLoop count (zoneTest z) T fuel a accR att).2.2⟩⟩ := by
  intro fuel
  induction fuel with
  | zero => intro a accR att; rfl
  | succ n ih =>
    intro a accR att
    simp only [placeLoop, placeFastLoop, List.length_map]
    by_cases hlen : accR.length < count
    · rw [if_pos hlen, if_pos hlen]
      rcases hm1 : mulberry32 ⟨a⟩ with ⟨s1, kx⟩
      have hkx : kx < 2 ^ 32 := by
        have := mulberry32_out_lt ⟨a⟩
        rw [hm1] at this
        exact this
      rcases hm2 : mulberry32 s1 with ⟨s2, kz⟩
      have hkz : kz < 2 ^ 32 := by
        have := mulberry32_out_lt s1
        rw [hm2] at this
        exact this
      simp only [mulberryN, hm1, show (⟨s1.a⟩ : RngState) = s1 from rfl, hm2]
      rw [getLayoutZone_worldCoord kx kz hkx hkz]
      simp only [zoneTest, decide_eq_true_eq]
      rw [if_pos hpos, all_map_comp]
      have hfun : ((fun p : Pos =>
          !decide ((worldCoord kx - p.x) * (worldCoord kx - p.x) +
            (worldCoord kz - p.z) * (worldCoord kz - p.z) <
              minD * minD)) ∘ toPos) =
          (fun q : Nat × Nat => !decide (sepScaledSq kx kz q.1 q.2 < T)) := by
        funext q
        simp only [Function.comp_apply, toPos]
        exact congrArg Bool.not
          (decide_eq_decide.mpr (sep_iff kx kz q.1 q.2 minD T hT))
      rw [hfun, ite_self]
      by_cases hcond :
          pixelZone (layoutPixelN (kx / 33554432) (kz / 33554432)) = some z
      · rw [if_pos hcond, if_pos hcond]
        by_cases hall :
            accR.all (fun q : Nat × Nat => !decide (sepScaledSq kx kz q.1 q.2 < T)) = true
        · rw [if_pos hall, if_pos hall]
          have hrec := ih s2.a (accR ++ [(kx, kz)]) (att + 1)
          rw [List.map_append, show (⟨s2.a⟩ : RngState) = s2 from rfl] at hrec
          simp only [List.map_cons, List.map_nil, toPos] at hrec
          exact hrec
        · rw [if_neg hall, if_neg hall]
          have hrec := ih s2.a accR (att + 1)
          rw [show (⟨s2.a⟩ : RngState) = s2 from rfl] at hrec
          exact hrec
      · rw [if_neg hcond, if_neg hcond]
        have hrec := ih s2.a accR (att + 1)
        rw [show (⟨s2.a⟩ : RngState) = s2 from rfl] at hrec
        exact hrec
    · rw [if_neg hlen, if_neg hlen]


theorem placeObjects_eq_fast (a : Nat) (count : Nat) (z : Zone) (minD : ℚ)
    (T : Int) (hT : (T : ℚ) = minD * minD * 2 ^ 60) (hpos : 0 < minD) :
    placeObjects ⟨a⟩ count z minD =
      ⟨((placeFastLoop count (zoneTest z) T 10000 a [] 0).1).map toPos,
       (placeFastLoop count (zoneTest z) T 10000 a [] 0).2.1,
       ⟨(placeFastLoop count (zoneTest z) T 10000 a [] 0).2.2⟩⟩ := by
  have h := placeLoop_eq_fast count z minD T hT hpos 10000 a [] 0
  simpa [placeObjects] using h

/-- Once the requested count is reached the loop returns immediately,
whatever fuel is left. -/
theorem placeFastLoop_saturated (count : Nat) (test : Nat → Nat → Bool)
    (T : Int) (a : Nat) (acc : List (Nat × Nat)) (att : Nat)
    (h : ¬ acc.length < count) :
    ∀ fuel, placeFastLoop count test T fuel a acc att = (acc, att, a) := by
  intro fuel
  cases fuel with
  | zero => rfl
  | succ n => simp only [placeFastLoop, if_neg h]

/-- Splitting the fuel budget: running `m + k` iterations is running `m`
then `k` more from where the first run stopped. -/
theorem placeFastLoop_add (count : Nat) (test : Nat → Nat → Bool) (T : Int) :
    ∀ (m k a : Nat) (acc : List (Nat × Nat)) (att : Nat),
      placeFastLoop count test T (m + k) a acc att =
        placeFastLoop count test T k
          (placeFastLoop count test T m a acc att).2.2
          (placeFastLoop count test T m a acc att).1
          (placeFastLoop count test T m a acc att).2.1 := by
  intro m
  induction m with
  | zero =>
    intro k a acc att
    rw [Nat.zero_add]
    rfl
  | succ n ih =>
    intro k a acc att
    rw [Nat.succ_add]
    by_cases hlen : acc.length < count
    · simp only [placeFastLoop, if_pos hlen]
      rcases hm1 : mulberryN a with ⟨a1, kx⟩
      rcases hm2 : mulberryN a1 with ⟨a2, kz⟩
      simp only [ite_self]
      exact ih k a2 _ (att + 1)
    · simp only [placeFastLoop, if_neg hlen]
      rw [placeFastLoop_saturated count test T a acc att hlen k]

/-- One verified 500-iteration chunk extends to any larger budget. -/
theorem chunkStep {count : Nat} {test : Nat → Nat → Bool} {T : Int}
    {m k a att a' att' : Nat} {acc acc' : List (Nat × Nat)}
    (h : placeFastLoop count test T m a acc att = (acc', att', a')) :
    placeFastLoop count test T (m + k) a acc att =
      placeFastLoop count test T k a' acc' att' := by
  rw [placeFastLoop_add, h]

set_option maxRecDepth 500000 in
theorem treePhase : placeFastLoop 5 (zoneTestR .TREE) (16 * 2 ^ 60) 10000 FIXED_SEED [] 0 =
    ([(2079646450, 3513001552), (2158873410, 719588981), (998967627, 3294806711), (1019231168, 1075719198), (3492578935, 1439196053)], 55, 3903756159) := by
  decide

set_option maxRecDepth 500000 in
theorem bushChunk0 : placeFastLoop 5 (zoneTestR .BUSH) (9 * 2 ^ 58) 250 3903756159 [] 0 =
    ([(3447996610, 2571133885), (2901581181, 900242545), (1468297251, 2070274025)], 250, 563661315) := by
  decide

set_option maxRecDepth 500000 in
theorem bushChunk1 : placeFastLoop 5 (zoneTestR .BUSH) (9 * 2 ^ 58) 250 563661315 [(3447996610, 2571133885), (2901581181, 900242545), (1468297251, 2070274025)] 250 =
    ([(3447996610, 2571133885), (2901581181, 900242545), (1468297251, 2070274025), (2554772748, 3930679688)], 500, 1518533767) := by
  decide

set_option maxRecDepth 500000 in
theorem bushChunk2 : placeFastLoop 5 (zoneTestR .BUSH) (9 * 2 ^ 58) 250 1518533767 [(3447996610, 2571133885), (2901581181, 900242545), (1468297251, 2070274025), (2554772748, 3930679688)] 500 =
    ([(3447996610, 2571133885), (2901581181, 900242545), (1468297251, 2070274025), (2554772748, 3930679688)], 750, 2473406219) := by
  decide

set_option maxRecDepth 500000 in
theorem bushChunk3 : placeFastLoop 5 (zoneTestR .BUSH) (9 * 2 ^ 58) 250 2473406219 [(3447996610, 2571133885), (2901581181, 900242545), (1468297251, 2070274025), (2554772748, 3930679688)] 750 =
    ([(3447996610, 2571133885), (2901581181, 900242545), (1468297251, 2070274025), (2554772748, 3930679688), (691250420, 2546769565)], 971, 276676621) := by
  decide

theorem bushPhase : placeFastLoop 5 (zoneTestR .BUSH) (9 * 2 ^ 58) 10000 3903756159 [] 0 =
    ([(3447996610, 2571133885), (2901581181, 900242545), (1468297251, 2070274025), (2554772748, 3930679688), (691250420, 2546769565)], 971, 276676621) := by
  rw [show (10000 : Nat) = 250 + (250 + (250 + (250 + (9000)))) from rfl,
    chunkStep bushChunk0, chunkStep bushChunk1, chunkStep bushChunk2, chunkStep bushChunk3]
  exact placeFastLoop_saturated 5 (zoneTestR .BUSH) (9 * 2 ^ 58) 276676621 [(3447996610, 2571133885), (2901581181, 900242545), (1468297251, 2070274025), (2554772748, 3930679688), (691250420, 2546769565)] 971 (by decide) 9000

set_option maxRecDepth 500000 in
theorem flowerChunk0 : placeFastLoop 8 (zoneTestR .FLOWER) (2 ^ 60) 250 276676621 [] 0 =
    ([(1405440250, 2708124957), (1291808026, 4000520986), (2619936952, 1981832439), (888642728, 519631803), (3878470980, 2063189499), (1566365795, 2888029621)], 250, 1231549073) := by
  decide

set_option maxRecDepth 500000 in
theorem flowerChunk1 : placeFastLoop 8 (zoneTestR .FLOWER) (2 ^ 60) 250 1231549073 [(1405440250, 2708124957), (1291808026, 4000520986), (2619936952, 1981832439), (888642728, 519631803), (3878470980, 2063189499), (1566365795, 2888029621)] 250 =
    ([(1405440250, 2708124957), (1291808026, 4000520986), (2619936952, 1981832439), (888642728, 519631803), (3878470980, 2063189499), (1566365795, 2888029621), (842397540, 308167206)], 500, 2186421525) := by
  decide

set_option maxRecDepth 500000 in
theorem flowerChunk2 : placeFastLoop 8 (zoneTestR .FLOWER) (2 ^ 60) 250 2186421525 [(1405440250, 2708124957), (1291808026, 4000520986), (2619936952, 1981832439), (888642728, 519631803), (3878470980, 2063189499), (1566365795, 2888029621), (842397540, 308167206)] 500 =
    ([(1405440250, 2708124957), (1291808026, 4000520986), (2619936952, 1981832439), (888642728, 519631803), (3878470980, 2063189499), (1566365795, 2888029621), (842397540, 308167206)], 750, 3141293977) := by
  decide

set_option maxRecDepth 500000 in
theorem flowerChunk3 : placeFastLoop 8 (zoneTestR .FLOWER) (2 ^ 60) 250 3141293977 [(1405440250, 2708124957), (1291808026, 4000520986), (2619936952, 1981832439), (888642728, 519631803), (3878470980, 2063189499), (1566365795, 2888029621), (842397540, 308167206)] 750 =
    ([(1405440250, 2708124957), (1291808026, 4000520986), (2619936952, 1981832439), (888642728, 519631803), (3878470980, 2063189499), (1566365795, 2888029621), (842397540, 308167206)], 1000, 4096166429) := by
  decide

set_option maxRecDepth 500000 in
theorem flowerChunk4 : placeFastLoop 8 (zoneTestR .FLOWER) (2 ^ 60) 250 4096166429 [(1405440250, 2708124957), (1291808026, 4000520986), (2619936952, 1981832439), (888642728, 519631803), (3878470980, 2063189499), (1566365795, 2888029621), (842397540, 308167206)] 1000 =
    ([(1405440250, 2708124957), (1291808026, 4000520986), (2619936952, 1981832439), (888642728, 519631803), (3878470980, 2063189499), (1566365795, 2888029621), (842397540, 308167206), (1314824099, 3771338664)], 1134, 1034565273) := by
  decide

theorem flowerPhase : placeFastLoop 8 (zoneTestR .FLOWER) (2 ^ 60) 10000 276676621 [] 0 =
    ([(1405440250, 2708124957), (1291808026, 4000520986), (2619936952, 1981832439), (888642728, 519631803), (3878470980, 2063189499), (1566365795, 2888029621), (842397540, 308167206), (1314824099, 3771338664)], 1134, 1034565273) := by
  rw [show (10000 : Nat) = 250 + (250 + (250 + (250 + (250 + (8750))))) from rfl,
    chunkStep flowerChunk0, chunkStep flowerChunk1, chunkStep flowerChunk2, chunkStep flowerChunk3, chunkStep flowerChunk4]
  exact placeFastLoop_saturated 8 (zoneTestR .FLOWER) (2 ^ 60) 1034565273 [(1405440250, 2708124957), (1291808026, 4000520986), (2619936952, 1981832439), (888642728, 519631803), (3878470980, 2063189499), (1566365795, 2888029621), (842397540, 308167206), (1314824099, 3771338664)] 1134 (by decide) 8750

set_option maxRecDepth 500000 in
theorem rockChunk0 : placeFastLoop 2 emptyHitR (4 * 2 ^ 60) 500 1034565273 [] 0 =
    ([(2185908461, 2137126242)], 500, 2944310177) := by
  decide

set_option maxRecDepth 500000 in
theorem rockChunk1 : placeFastLoop 2 emptyHitR (4 * 2 ^ 60) 500 2944310177 [(2185908461, 2137126242)] 500 =
    ([(2185908461, 2137126242)], 1000, 559087785) := by
  decide

set_option maxRecDepth 500000 in
theorem rockChunk2 : placeFastLoop 2 emptyHitR (4 * 2 ^ 60) 500 559087785 [(2185908461, 2137126242)] 1000 =
    ([(2185908461, 2137126242)], 1500, 2468832689) := by
  decide

set_option maxRecDepth 500000 in
theorem rockChunk3 : placeFastLoop 2 emptyHitR (4 * 2 ^ 60) 500 2468832689 [(2185908461, 2137126242)] 1500 =
    ([(2185908461, 2137126242)], 2000, 83610297) := by
  decide

set_option maxRecDepth 500000 in
theorem rockChunk4 : placeFastLoop 2 emptyHitR (4 * 2 ^ 60) 500 83610297 [(2185908461, 2137126242)] 2000 =
    ([(2185908461, 2137126242)], 2500, 1993355201) := by
  decide

set_option maxRecDepth 500000 in
theorem rockChunk5 : placeFastLoop 2 emptyHitR (4 * 2 ^ 60) 500 1993355201 [(2185908461, 2137126242)] 2500 =
    ([(2185908461, 2137126242)], 3000, 3903100105) := by
  decide

set_option maxRecDepth 500000 in
theorem rockChunk6 : placeFastLoop 2 emptyHitR (4 * 2 ^ 60) 500 3903100105 [(2185908461, 2137126242)] 3000 =
    ([(2185908461, 2137126242)], 3500, 1517877713) := by
  decide

set_option maxRecDepth 500000 in
theorem rockChunk7 : placeFastLoop 2 emptyHitR (4 * 2 ^ 60) 500 1517877713 [(2185908461, 2137126242)] 3500 =
    ([(2185908461, 2137126242)], 4000, 3427622617) := by
  decide

set_option maxRecDepth 500000 in
theorem rockChunk8 : placeFastLoop 2 emptyHitR (4 * 2 ^ 60) 500 3427622617 [(2185908461, 2137126242)] 4000 =
    ([(2185908461, 2137126242)], 4500, 1042400225) := by
  decide

set_option maxRecDepth 500000 in
theorem rockChunk9 : placeFastLoop 2 emptyHitR (4 * 2 ^ 60) 500 1042400225 [(2185908461, 2137126242)] 4500 =
    ([(2185908461, 2137126242)], 5000, 2952145129) := by
  decide

set_option maxRecDepth 500000 in
theorem rockChunk10 : placeFastLoop 2 emptyHitR (4 * 2 ^ 60) 500 2952145129 [(2185908461, 2137126242)] 5000 =
    ([(2185908461, 2137126242)], 5500, 566922737) := by
  decide

set_option maxRecDepth 500000 in
theorem rockChunk11 : placeFastLoop 2 emptyHitR (4 * 2 ^ 60) 500 566922737 [(2185908461, 2137126242)] 5500 =
    ([(2185908461, 2137126242)], 6000, 2476667641) := by
  decide

set_option maxRecDepth 500000 in
theorem rockChunk12 : placeFastLoop 2 emptyHitR (4 * 2 ^ 60) 500 2476667641 [(2185908461, 2137126242)] 6000 =
    ([(2185908461, 2137126242)], 6500, 91445249) := by
  decide

set_option maxRecDepth 500000 in
theorem rockChunk13 : placeFastLoop 2 emptyHitR (4 * 2 ^ 60) 500 91445249 [(2185908461, 2137126242)] 6500 =
    ([(2185908461, 2137126242)], 7000, 2001190153) := by
  decide

set_option maxRecDepth 500000 in
theorem rockChunk14 : placeFastLoop 2 emptyHitR (4 * 2 ^ 60) 500 2001190153 [(2185908461, 2137126242)] 7000 =
    ([(2185908461, 2137126242)], 7500, 3910935057) := by
  decide

set_option maxRecDepth 500000 in
theorem rockChunk15 : placeFastLoop 2 emptyHitR (4 * 2 ^ 60) 500 3910935057 [(2185908461, 2137126242)] 7500 =
    ([(2185908461, 2137126242)], 8000, 1525712665) := by
  decide

set_option maxRecDepth 500000 in
theorem rockChunk16 : placeFastLoop 2 emptyHitR (4 * 2 ^ 60) 500 1525712665 [(2185908461, 2137126242)] 8000 =
    ([(2185908461, 2137126242)], 8500, 3435457569) := by
  decide

set_option maxRecDepth 500000 in
theorem rockChunk17 : placeFastLoop 2 emptyHitR (4 * 2 ^ 60) 500 3435457569 [(2185908461, 2137126242)] 8500 =
    ([(2185908461, 2137126242)], 9000, 1050235177) := by
  decide

set_option maxRecDepth 500000 in
theorem rockChunk18 : placeFastLoop 2 emptyHitR (4 * 2 ^ 60) 500 1050235177 [(2185908461, 2137126242)] 9000 =
    ([(2185908461, 2137126242)], 9500, 2959980081) := by
  decide

set_option maxRecDepth 500000 in
theorem rockChunk19 : placeFastLoop 2 emptyHitR (4 * 2 ^ 60) 500 2959980081 [(2185908461, 2137126242)] 9500 =
    ([(2185908461, 2137126242)], 10000, 574757689) := by
  decide

theorem rockPhase : placeFastLoop 2 (zoneTestR .EMPTY) (4 * 2 ^ 60) 10000 1034565273 [] 0 =
    ([(2185908461, 2137126242)], 10000, 574757689) := by
  rw [show zoneTestR .EMPTY = emptyHitR from
    (zoneTest_eq_scan .EMPTY).symm.trans (funext fun i => funext fun j =>
      ((emptyHitR_eq i j).trans (emptyHit_eq_zoneTest i j)).symm)]
  rw [show (10000 : Nat) = 500 + (500 + (500 + (500 + (500 + (500 + (500 + (500 + (500 + (500 + (500 + (500 + (500 + (500 + (500 + (500 + (500 + (500 + (500 + (500))))))))))))))))))) from rfl,
    chunkStep rockChunk0, chunkStep rockChunk1, chunkStep rockChunk2, chunkStep rockChunk3, chunkStep rockChunk4, chunkStep rockChunk5, chunkStep rockChunk6, chunkStep rockChunk7, chunkStep rockChunk8, chunkStep rockChunk9, chunkStep rockChunk10, chunkStep rockChunk11, chunkStep rockChunk12, chunkStep rockChunk13, chunkStep rockChunk14, chunkStep rockChunk15, chunkStep rockChunk16, chunkStep rockChunk17, chunkStep rockChunk18]
  exact rockChunk19

theorem placeTree_eval : placeObjects ⟨FIXED_SEED⟩ 5 .TREE 4 =
    ⟨List.map toPos [(2079646450, 3513001552), (2158873410, 719588981), (998967627, 3294806711), (1019231168, 1075719198), (3492578935, 1439196053)], 55, ⟨3903756159⟩⟩ := by
  rw [placeObjects_eq_fast FIXED_SEED 5 .TREE 4 (16 * 2 ^ 60) (by norm_num) (by norm_num),
    zoneTest_eq_scan, treePhase]

theorem placeBush_eval : placeObjects ⟨3903756159⟩ 5 .BUSH (3/2) =
    ⟨List.map toPos [(3447996610, 2571133885), (2901581181, 900242545), (1468297251, 2070274025), (2554772748, 3930679688), (691250420, 2546769565)], 971, ⟨276676621⟩⟩ := by
  rw [placeObjects_eq_fast 3903756159 5 .BUSH (3/2) (9 * 2 ^ 58) (by norm_num) (by norm_num),
    zoneTest_eq_scan, bushPhase]

theorem placeFlower_eval : placeObjects ⟨276676621⟩ 8 .FLOWER 1 =
    ⟨List.map toPos [(1405440250, 2708124957), (1291808026, 4000520986), (2619936952, 1981832439), (888642728, 519631803), (3878470980, 2063189499), (1566365795, 2888029621), (842397540, 308167206), (1314824099, 3771338664)], 1134, ⟨1034565273⟩⟩ := by
  rw [placeObjects_eq_fast 276676621 8 .FLOWER 1 (2 ^ 60) (by norm_num) (by norm_num),
    zoneTest_eq_scan, flowerPhase]

theorem placeRock_eval : placeObjects ⟨1034565273⟩ 2 .EMPTY 2 =
    ⟨List.map toPos [(2185908461, 2137126242)], 10000, ⟨574757689⟩⟩ := by
  rw [placeObjects_eq_fast 1034565273 2 .EMPTY 2 (4 * 2 ^ 60) (by norm_num) (by norm_num),
    zoneTest_eq_scan, rockPhase]

set_option maxRecDepth 500000 in
theorem grassPhase : placeFastLoop 40 (zoneTestR .GRASS) (2 ^ 58) 10000 574757689 [] 0 =
    ([(2708712882, 3169576009), (153111584, 1942596496), (676282664, 3755164639), (3356906851, 4046134342), (2024451937, 331728009), (1312004803, 3657468321), (3325143472, 421826517), (68828203, 1697801421), (2983527985, 1595511820), (1350862495, 3028226330), (4163810972, 2436785772), (2720322817, 306211467), (604168393, 3931587976), (1973917751, 1156360306), (4209083411, 320767759), (3981815341, 107219596), (1269478728, 677186295), (3224579418, 1448959091), (860182895, 1660669710), (3782143909, 3026157785), (2898006762, 244308354), (1189125051, 1968706683), (1809948055, 3574315416), (2204875960, 1661467301), (3559635002, 1567084050), (296279047, 2307402210), (419597444, 1160965458), (1667266341, 1717019000), (1370892313, 721492521), (3439212429, 2853883367), (4107825202, 1512247399), (1292161969, 1190999483), (1538411328, 968068009), (262187625, 869393055), (1307167124, 988597956), (1666297793, 356103089), (3000263175, 1722578650), (108915790, 2206193116), (2957748008, 548762637), (4129628099, 3104450257)], 47, 943252271) := by
  decide

theorem placeGrass_eval : placeObjects ⟨574757689⟩ 40 .GRASS (1/2) =
    ⟨List.map toPos [(2708712882, 3169576009), (153111584, 1942596496), (676282664, 3755164639), (3356906851, 4046134342), (2024451937, 331728009), (1312004803, 3657468321), (3325143472, 421826517), (68828203, 1697801421), (2983527985, 1595511820), (1350862495, 3028226330), (4163810972, 2436785772), (2720322817, 306211467), (604168393, 3931587976), (1973917751, 1156360306), (4209083411, 320767759), (3981815341, 107219596), (1269478728, 677186295), (3224579418, 1448959091), (860182895, 1660669710), (3782143909, 3026157785), (2898006762, 244308354), (1189125051, 1968706683), (1809948055, 3574315416), (2204875960, 1661467301), (3559635002, 1567084050), (296279047, 2307402210), (419597444, 1160965458), (1667266341, 1717019000), (1370892313, 721492521), (3439212429, 2853883367), (4107825202, 1512247399), (1292161969, 1190999483), (1538411328, 968068009), (262187625, 869393055), (1307167124, 988597956), (1666297793, 356103089), (3000263175, 1722578650), (108915790, 2206193116), (2957748008, 548762637), (4129628099, 3104450257)], 47, ⟨943252271⟩⟩ := by
  rw [placeObjects_eq_fast 574757689 40 .GRASS (1/2) (2 ^ 58) (by norm_num) (by norm_num),
    zoneTest_eq_scan, grassPhase]

/-- Full evaluation of the seed-12345 layout at grass request 40: every field
of the record, with positions given by their raw 32-bit draws. -/
theorem layout40_eq : layout 40 =
    (⟨(List.map toPos [(2079646450, 3513001552), (2158873410, 719588981), (998967627, 3294806711), (1019231168, 1075719198), (3492578935, 1439196053)]).take 2, (List.map toPos [(2079646450, 3513001552), (2158873410, 719588981), (998967627, 3294806711), (1019231168, 1075719198), (3492578935, 1439196053)]).drop 2, List.map toPos [(3447996610, 2571133885), (2901581181, 900242545), (1468297251, 2070274025), (2554772748, 3930679688), (691250420, 2546769565)], List.map toPos [(1405440250, 2708124957), (1291808026, 4000520986), (2619936952, 1981832439), (888642728, 519631803), (3878470980, 2063189499), (1566365795, 2888029621), (842397540, 308167206), (1314824099, 3771338664)], List.map toPos [(2185908461, 2137126242)], List.map toPos [(2708712882, 3169576009), (153111584, 1942596496), (676282664, 3755164639), (3356906851, 4046134342), (2024451937, 331728009), (1312004803, 3657468321), (3325143472, 421826517), (68828203, 1697801421), (2983527985, 1595511820), (1350862495, 3028226330), (4163810972, 2436785772), (2720322817, 306211467), (604168393, 3931587976), (1973917751, 1156360306), (4209083411, 320767759), (3981815341, 107219596), (1269478728, 677186295), (3224579418, 1448959091), (860182895, 1660669710), (3782143909, 3026157785), (2898006762, 244308354), (1189125051, 1968706683), (1809948055, 3574315416), (2204875960, 1661467301), (3559635002, 1567084050), (296279047, 2307402210), (419597444, 1160965458), (1667266341, 1717019000), (1370892313, 721492521), (3439212429, 2853883367), (4107825202, 1512247399), (1292161969, 1190999483), (1538411328, 968068009), (262187625, 869393055), (1307167124, 988597956), (1666297793, 356103089), (3000263175, 1722578650), (108915790, 2206193116), (2957748008, 548762637), (4129628099, 3104450257)], List.map toPos [(2079646450, 3513001552), (2158873410, 719588981), (998967627, 3294806711), (1019231168, 1075719198), (3492578935, 1439196053)]⟩ : Layout) := by
  calc layout 40
      = (fun r1 : PlaceResult => (⟨(r1.positions).take 2, (r1.positions).drop 2, (placeObjects r1.state 5 .BUSH (3/2)).positions, (placeObjects (placeObjects r1.state 5 .BUSH (3/2)).state 8 .FLOWER 1).positions, (placeObjects (placeObjects (placeObjects r1.state 5 .BUSH (3/2)).state 8 .FLOWER 1).state 2 .EMPTY 2).positions, (placeObjects (placeObjects (placeObjects (placeObjects r1.state 5 .BUSH (3/2)).state 8 .FLOWER 1).state 2 .EMPTY 2).state 40 .GRASS (1/2)).positions, r1.positions⟩ : Layout)) (placeObjects ⟨FIXED_SEED⟩ 5 .TREE 4) := rfl
    _ = (fun r1 : PlaceResult => (⟨(r1.positions).take 2, (r1.positions).drop 2, (placeObjects r1.state 5 .BUSH (3/2)).positions, (placeObjects (placeObjects r1.state 5 .BUSH (3/2)).state 8 .FLOWER 1).positions, (placeObjects (placeObjects (placeObjects r1.state 5 .BUSH (3/2)).state 8 .FLOWER 1).state 2 .EMPTY 2).positions, (placeObjects (placeObjects (placeObjects (placeObjects r1.state 5 .BUSH (3/2)).state 8 .FLOWER 1).state 2 .EMPTY 2).state 40 .GRASS (1/2)).positions, r1.positions⟩ : Layout)) (⟨List.map toPos [(2079646450, 3513001552), (2158873410, 719588981), (998967627, 3294806711), (1019231168, 1075719198), (3492578935, 1439196053)], 55, ⟨3903756159⟩⟩ : PlaceResult) := by
        exact congrArg (fun r1 : PlaceResult => (⟨(r1.positions).take 2, (r1.positions).drop 2, (placeObjects r1.state 5 .BUSH (3/2)).positions, (placeObjects (placeObjects r1.state 5 .BUSH (3/2)).state 8 .FLOWER 1).positions, (placeObjects (placeObjects (placeObjects r1.state 5 .BUSH (3/2)).state 8 .FLOWER 1).state 2 .EMPTY 2).positions, (placeObjects (placeObjects (placeObjects (placeObjects r1.state 5 .BUSH (3/2)).state 8 .FLOWER 1).state 2 .EMPTY 2).state 40 .GRASS (1/2)).positions, r1.positions⟩ : Layout)) placeTree_eval
    _ = (fun r2 : PlaceResult => (⟨(List.map toPos [(2079646450, 3513001552), (2158873410, 719588981), (998967627, 3294806711), (1019231168, 1075719198), (3492578935, 1439196053)]).take 2, (List.map toPos [(2079646450, 3513001552), (2158873410, 719588981), (998967627, 3294806711), (1019231168, 1075719198), (3492578935, 1439196053)]).drop 2, r2.positions, (placeObjects r2.state 8 .FLOWER 1).positions, (placeObjects (placeObjects r2.state 8 .FLOWER 1).state 2 .EMPTY 2).positions, (placeObjects (placeObjects (placeObjects r2.state 8 .FLOWER 1).state 2 .EMPTY 2).state 40 .GRASS (1/2)).positions, List.map toPos [(2079646450, 3513001552), (2158873410, 719588981), (998967627, 3294806711), (1019231168, 1075719198), (3492578935, 1439196053)]⟩ : Layout)) (placeObjects ⟨3903756159⟩ 5 .BUSH (3/2)) := rfl
    _ = (fun r2 : PlaceResult => (⟨(List.map toPos [(2079646450, 3513001552), (2158873410, 719588981), (998967627, 3294806711), (1019231168, 1075719198), (3492578935, 1439196053)]).take 2, (List.map toPos [(2079646450, 3513001552), (2158873410, 719588981), (998967627, 3294806711), (1019231168, 1075719198), (3492578935, 1439196053)]).drop 2, r2.positions, (placeObjects r2.state 8 .FLOWER 1).positions, (placeObjects (placeObjects r2.state 8 .FLOWER 1).state 2 .EMPTY 2).positions, (placeObjects (placeObjects (placeObjects r2.state 8 .FLOWER 1).state 2 .EMPTY 2).state 40 .GRASS (1/2)).positions, List.map toPos [(2079646450, 3513001552), (2158873410, 719588981), (998967627, 3294806711), (1019231168, 1075719198), (3492578935, 1439196053)]⟩ : Layout)) (⟨List.map toPos [(3447996610, 2571133885), (2901581181, 900242545), (1468297251, 2070274025), (2554772748, 3930679688), (691250420, 2546769565)], 971, ⟨276676621⟩⟩ : PlaceResult) := by
        exact congrArg (fun r2 : PlaceResult => (⟨(List.map toPos [(2079646450, 3513001552), (2158873410, 719588981), (998967627, 3294806711), (1019231168, 1075719198), (3492578935, 1439196053)]).take 2, (List.map toPos [(2079646450, 3513001552), (2158873410, 719588981), (998967627, 3294806711), (1019231168, 1075719198), (3492578935, 1439196053)]).drop 2, r2.positions, (placeObjects r2.state 8 .FLOWER 1).positions, (placeObjects (placeObjects r2.state 8 .FLOWER 1).state 2 .EMPTY 2).positions, (placeObjects (placeObjects (placeObjects r2.state 8 .FLOWER 1).state 2 .EMPTY 2).state 40 .GRASS (1/2)).positions, List.map toPos [(2079646450, 3513001552), (2158873410, 719588981), (998967627, 3294806711), (1019231168, 1075719198), (3492578935, 1439196053)]⟩ : Layout)) placeBush_eval
    _ = (fun r3 : PlaceResult => (⟨(List.map toPos [(2079646450, 3513001552), (2158873410, 719588981), (998967627, 3294806711), (1019231168, 1075719198), (3492578935, 1439196053)]).take 2, (List.map toPos [(2079646450, 3513001552), (2158873410, 719588981), (998967627, 3294806711), (1019231168, 1075719198), (3492578935, 1439196053)]).drop 2, List.map toPos [(3447996610, 2571133885), (2901581181, 900242545), (1468297251, 2070274025), (2554772748, 3930679688), (691250420, 2546769565)], (r3.positions), (placeObjects r3.state 2 .EMPTY 2).positions, (placeObjects (placeObjects r3.state 2 .EMPTY 2).state 40 .GRASS (1/2)).positions, List.map toPos [(2079646450, 3513001552), (2158873410, 719588981), (998967627, 3294806711), (1019231168, 1075719198), (3492578935, 1439196053)]⟩ : Layout)) (placeObjects ⟨276676621⟩ 8 .FLOWER 1) := rfl
    _ = (fun r3 : PlaceResult => (⟨(List.map toPos [(2079646450, 3513001552), (2158873410, 719588981), (998967627, 3294806711), (1019231168, 1075719198), (3492578935, 1439196053)]).take 2, (List.map toPos [(2079646450, 3513001552), (2158873410, 719588981), (998967627, 3294806711), (1019231168, 1075719198), (3492578935, 1439196053)]).drop 2, List.map toPos [(3447996610, 2571133885), (2901581181, 900242545), (1468297251, 2070274025), (2554772748, 3930679688), (691250420, 2546769565)], (r3.positions), (placeObjects r3.state 2 .EMPTY 2).positions, (placeObjects (placeObjects r3.state 2 .EMPTY 2).state 40 .GRASS (1/2)).positions, List.map toPos [(2079646450, 3513001552), (2158873410, 719588981), (998967627, 3294806711), (1019231168, 1075719198), (3492578935, 1439196053)]⟩ : Layout)) (⟨List.map toPos [(1405440250, 2708124957), (1291808026, 4000520986), (2619936952, 1981832439), (888642728, 519631803), (3878470980, 2063189499), (1566365795, 2888029621), (842397540, 308167206), (1314824099, 3771338664)], 1134, ⟨1034565273⟩⟩ : PlaceResult) := by
        exact congrArg (fun r3 : PlaceResult => (⟨(List.map toPos [(2079646450, 3513001552), (2158873410, 719588981), (998967627, 3294806711), (1019231168, 1075719198), (3492578935, 1439196053)]).take 2, (List.map toPos [(2079646450, 3513001552), (2158873410, 719588981), (998967627, 3294806711), (1019231168, 1075719198), (3492578935, 1439196053)]).drop 2, List.map toPos [(3447996610, 2571133885), (2901581181, 900242545), (1468297251, 2070274025), (2554772748, 3930679688), (691250420, 2546769565)], (r3.positions), (placeObjects r3.state 2 .EMPTY 2).positions, (placeObjects (placeObjects r3.state 2 .EMPTY 2).state 40 .GRASS (1/2)).positions, List.map toPos [(2079646450, 3513001552), (2158873410, 719588981), (998967627, 3294806711), (1019231168, 1075719198), (3492578935, 1439196053)]⟩ : Layout)) placeFlower_eval
    _ = (fun r4 : PlaceResult => (⟨(List.map toPos [(2079646450, 3513001552), (2158873410, 719588981), (998967627, 3294806711), (1019231168, 1075719198), (3492578935, 1439196053)]).take 2, (List.map toPos [(2079646450, 3513001552), (2158873410, 719588981), (998967627, 3294806711), (1019231168, 1075719198), (3492578935, 1439196053)]).drop 2, List.map toPos [(3447996610, 2571133885), (2901581181, 900242545), (1468297251, 2070274025), (2554772748, 3930679688), (691250420, 2546769565)], List.map toPos [(1405440250, 2708124957), (1291808026, 4000520986), (2619936952, 1981832439), (888642728, 519631803), (3878470980, 2063189499), (1566365795, 2888029621), (842397540, 308167206), (1314824099, 3771338664)], (r4.positions), (placeObjects r4.state 40 .GRASS (1/2)).positions, List.map toPos [(2079646450, 3513001552), (2158873410, 719588981), (998967627, 3294806711), (1019231168, 1075719198), (3492578935, 1439196053)]⟩ : Layout)) (placeObjects ⟨1034565273⟩ 2 .EMPTY 2) := rfl
    _ = (fun r4 : PlaceResult => (⟨(List.map toPos [(2079646450, 3513001552), (2158873410, 719588981), (998967627, 3294806711), (1019231168, 1075719198), (3492578935, 1439196053)]).take 2, (List.map toPos [(2079646450, 3513001552), (2158873410, 719588981), (998967627, 3294806711), (1019231168, 1075719198), (3492578935, 1439196053)]).drop 2, List.map toPos [(3447996610, 2571133885), (2901581181, 900242545), (1468297251, 2070274025), (2554772748, 3930679688), (691250420, 2546769565)], List.map toPos [(1405440250, 2708124957), (1291808026, 4000520986), (2619936952, 1981832439), (888642728, 519631803), (3878470980, 2063189499), (1566365795, 2888029621), (842397540, 308167206), (1314824099, 3771338664)], (r4.positions), (placeObjects r4.state 40 .GRASS (1/2)).positions, List.map toPos [(2079646450, 3513001552), (2158873410, 719588981), (998967627, 3294806711), (1019231168, 1075719198), (3492578935, 1439196053)]⟩ : Layout)) (⟨List.map toPos [(2185908461, 2137126242)], 10000, ⟨574757689⟩⟩ : PlaceResult) := by
        exact congrArg (fun r4 : PlaceResult => (⟨(List.map toPos [(2079646450, 3513001552), (2158873410, 719588981), (998967627, 3294806711), (1019231168, 1075719198), (3492578935, 1439196053)]).take 2, (List.map toPos [(2079646450, 3513001552), (2158873410, 719588981), (998967627, 3294806711), (1019231168, 1075719198), (3492578935, 1439196053)]).drop 2, List.map toPos [(3447996610, 2571133885), (2901581181, 900242545), (1468297251, 2070274025), (2554772748, 3930679688), (691250420, 2546769565)], List.map toPos [(1405440250, 2708124957), (1291808026, 4000520986), (2619936952, 1981832439), (888642728, 519631803), (3878470980, 2063189499), (1566365795, 2888029621), (842397540, 308167206), (1314824099, 3771338664)], (r4.positions), (placeObjects r4.state 40 .GRASS (1/2)).positions, List.map toPos [(2079646450, 3513001552), (2158873410, 719588981), (998967627, 3294806711), (1019231168, 1075719198), (3492578935, 1439196053)]⟩ : Layout)) placeRock_eval
    _ = (fun r5 : PlaceResult => (⟨(List.map toPos [(2079646450, 3513001552), (2158873410, 719588981), (998967627, 3294806711), (1019231168, 1075719198), (3492578935, 1439196053)]).take 2, (List.map toPos [(2079646450, 3513001552), (2158873410, 719588981), (998967627, 3294806711), (1019231168, 1075719198), (3492578935, 1439196053)]).drop 2, List.map toPos [(3447996610, 2571133885), (2901581181, 900242545), (1468297251, 2070274025), (2554772748, 3930679688), (691250420, 2546769565)], List.map toPos [(1405440250, 2708124957), (1291808026, 4000520986), (2619936952, 1981832439), (888642728, 519631803), (3878470980, 2063189499), (1566365795, 2888029621), (842397540, 308167206), (1314824099, 3771338664)], List.map toPos [(2185908461, 2137126242)], (r5.positions), List.map toPos [(2079646450, 3513001552), (2158873410, 719588981), (998967627, 3294806711), (1019231168, 1075719198), (3492578935, 1439196053)]⟩ : Layout)) (placeObjects ⟨574757689⟩ 40 .GRASS (1/2)) := rfl
    _ = (fun r5 : PlaceResult => (⟨(List.map toPos [(2079646450, 3513001552), (2158873410, 719588981), (998967627, 3294806711), (1019231168, 1075719198), (3492578935, 1439196053)]).take 2, (List.map toPos [(2079646450, 3513001552), (2158873410, 719588981), (998967627, 3294806711), (1019231168, 1075719198), (3492578935, 1439196053)]).drop 2, List.map toPos [(3447996610, 2571133885), (2901581181, 900242545), (1468297251, 2070274025), (2554772748, 3930679688), (691250420, 2546769565)], List.map toPos [(1405440250, 2708124957), (1291808026, 4000520986), (2619936952, 1981832439), (888642728, 519631803), (3878470980, 2063189499), (1566365795, 2888029621), (842397540, 308167206), (1314824099, 3771338664)], List.map toPos [(2185908461, 2137126242)], (r5.positions), List.map toPos [(2079646450, 3513001552), (2158873410, 719588981), (998967627, 3294806711), (1019231168, 1075719198), (3492578935, 1439196053)]⟩ : Layout)) (⟨List.map toPos [(2708712882, 3169576009), (153111584, 1942596496), (676282664, 3755164639), (3356906851, 4046134342), (2024451937, 331728009), (1312004803, 3657468321), (3325143472, 421826517), (68828203, 1697801421), (2983527985, 1595511820), (1350862495, 3028226330), (4163810972, 2436785772), (2720322817, 306211467), (604168393, 3931587976), (1973917751, 1156360306), (4209083411, 320767759), (3981815341, 107219596), (1269478728, 677186295), (3224579418, 1448959091), (860182895, 1660669710), (3782143909, 3026157785), (2898006762, 244308354), (1189125051, 1968706683), (1809948055, 3574315416), (2204875960, 1661467301), (3559635002, 1567084050), (296279047, 2307402210), (419597444, 1160965458), (1667266341, 1717019000), (1370892313, 721492521), (3439212429, 2853883367), (4107825202, 1512247399), (1292161969, 1190999483), (1538411328, 968068009), (262187625, 869393055), (1307167124, 988597956), (1666297793, 356103089), (3000263175, 1722578650), (108915790, 2206193116), (2957748008, 548762637), (4129628099, 3104450257)], 47, ⟨943252271⟩⟩ : PlaceResult) := by
        exact congrArg (fun r5 : PlaceResult => (⟨(List.map toPos [(2079646450, 3513001552), (2158873410, 719588981), (998967627, 3294806711), (1019231168, 1075719198), (3492578935, 1439196053)]).take 2, (List.map toPos [(2079646450, 3513001552), (2158873410, 719588981), (998967627, 3294806711), (1019231168, 1075719198), (3492578935, 1439196053)]).drop 2, List.map toPos [(3447996610, 2571133885), (2901581181, 900242545), (1468297251, 2070274025), (2554772748, 3930679688), (691250420, 2546769565)], List.map toPos [(1405440250, 2708124957), (1291808026, 4000520986), (2619936952, 1981832439), (888642728, 519631803), (3878470980, 2063189499), (1566365795, 2888029621), (842397540, 308167206), (1314824099, 3771338664)], List.map toPos [(2185908461, 2137126242)], (r5.positions), List.map toPos [(2079646450, 3513001552), (2158873410, 719588981), (998967627, 3294806711), (1019231168, 1075719198), (3492578935, 1439196053)]⟩ : Layout)) placeGrass_eval
    _ = (⟨(List.map toPos [(2079646450, 3513001552), (2158873410, 719588981), (998967627, 3294806711), (1019231168, 1075719198), (3492578935, 1439196053)]).take 2, (List.map toPos [(2079646450, 3513001552), (2158873410, 719588981), (998967627, 3294806711), (1019231168, 1075719198), (3492578935, 1439196053)]).drop 2, List.map toPos [(3447996610, 2571133885), (2901581181, 900242545), (1468297251, 2070274025), (2554772748, 3930679688), (691250420, 2546769565)], List.map toPos [(1405440250, 2708124957), (1291808026, 4000520986), (2619936952, 1981832439), (888642728, 519631803), (3878470980, 2063189499), (1566365795, 2888029621), (842397540, 308167206), (1314824099, 3771338664)], List.map toPos [(2185908461, 2137126242)], List.map toPos [(2708712882, 3169576009), (153111584, 1942596496), (676282664, 3755164639), (3356906851, 4046134342), (2024451937, 331728009), (1312004803, 3657468321), (3325143472, 421826517), (68828203, 1697801421), (2983527985, 1595511820), (1350862495, 3028226330), (4163810972, 2436785772), (2720322817, 306211467), (604168393, 3931587976), (1973917751, 1156360306), (4209083411, 320767759), (3981815341, 107219596), (1269478728, 677186295), (3224579418, 1448959091), (860182895, 1660669710), (3782143909, 3026157785), (2898006762, 244308354), (1189125051, 1968706683), (1809948055, 3574315416), (2204875960, 1661467301), (3559635002, 1567084050), (296279047, 2307402210), (419597444, 1160965458), (1667266341, 1717019000), (1370892313, 721492521), (3439212429, 2853883367), (4107825202, 1512247399), (1292161969, 1190999483), (1538411328, 968068009), (262187625, 869393055), (1307167124, 988597956), (1666297793, 356103089), (3000263175, 1722578650), (108915790, 2206193116), (2957748008, 548762637), (4129628099, 3104450257)], List.map toPos [(2079646450, 3513001552), (2158873410, 719588981), (998967627, 3294806711), (1019231168, 1075719198), (3492578935, 1439196053)]⟩ : Layout) := rfl

theorem layout40_allTree : (layout 40).allTreePositions =
    List.map toPos [(2079646450, 3513001552), (2158873410, 719588981), (998967627, 3294806711), (1019231168, 1075719198), (3492578935, 1439196053)] := by
  rw [layout40_eq]

theorem layout40_rock : (layout 40).rockPositions =
    List.map toPos [(2185908461, 2137126242)] := by
  rw [layout40_eq]

/-! ## Loop invariants of the placement sampler -/

/-- Positions are only ever appended after passing the zone test, the length
guard and (for positive `minDistance`) the separation test; any property
preserved by such an append is an invariant of the loop. -/
theorem placeLoop_inv (count : Nat) (z : Zone) (minD : ℚ)
    (P : List Pos → Prop)
    (hstep : ∀ (kx kz : Nat) (acc : List Pos), P acc →
      acc.length < count →
      getLayoutZone (worldCoord kx) (worldCoord kz) = some z →
      (0 < minD →
        acc.all (fun p =>
          !decide ((worldCoord kx - p.x) * (worldCoord kx - p.x) +
            (worldCoord kz - p.z) * (worldCoord kz - p.z) <
              minD * minD)) = true) →
      P (acc ++ [⟨worldCoord kx, worldCoord kz⟩])) :
    ∀ (fuel : Nat) (s : RngState) (acc : List Pos) (att : Nat), P acc →
      P (placeLoop count z minD fuel s acc att).positions := by
  intro fuel
  induction fuel with
  | zero => intro s acc att hacc; exact hacc
  | succ n ih =>
    intro s acc att hacc
    simp only [placeLoop]
    by_cases hlen : acc.length < count
    · rw [if_pos hlen]
      rcases hm1 : mulberry32 s with ⟨s1, kx⟩
      rcases hm2 : mulberry32 s1 with ⟨s2, kz⟩
      refine ih s2 _ (att + 1) ?_
      split_ifs with hz hp hall
      · exact hstep kx kz acc hacc hlen hz (fun _ => hall)
      · exact hacc
      · exact hstep kx kz acc hacc hlen hz (fun hc => absurd hc hp)
      · exact hacc
    · rw [if_neg hlen]; exact hacc

/-- The attempt counter advances by at most the remaining fuel. -/
theorem placeLoop_att (count : Nat) (z : Zone) (minD : ℚ) :
    ∀ (fuel : Nat) (s : RngState) (acc : List Pos) (att : Nat),
      (placeLoop count z minD fuel s acc att).attempts ≤ att + fuel := by
  intro fuel
  induction fuel with
  | zero => intro s acc att; exact Nat.le_refl att
  | succ n ih =>
    intro s acc att
    simp only [placeLoop]
    by_cases hlen : acc.length < count
    · rw [if_pos hlen]
      rcases hm1 : mulberry32 s with ⟨s1, kx⟩
      rcases hm2 : mulberry32 s1 with ⟨s2, kz⟩
      exact le_trans (ih s2 _ (att + 1)) (by omega)
    · rw [if_neg hlen]
      exact Nat.le_add_right att (n + 1)

/-- C2: every position accepted by a placement call with target zone `Z`
classifies back to `Z`: for all `p` returned by
`placeObjects(count, Z, minDistance)`, `getLayoutZone p.x p.z = some Z`. -/
theorem placement_zone_containment (s : RngState) (count : Nat) (z : Zone)
    (minD : ℚ) (p : Pos)
    (hp : p ∈ (placeObjects s count z minD).positions) :
    getLayoutZone p.x p.z = some z := by
  refine placeLoop_inv count z minD
    (fun l => ∀ q ∈ l, getLayoutZone q.x q.z = some z)
    ?_ 10000 s [] 0 (fun q hq => absurd hq (List.not_mem_nil q)) p hp
  intro kx kz acc hacc _ hz _
  intro q hq
  rcases List.mem_append.mp hq with h | h
  · exact hacc q h
  · rcases List.mem_singleton.mp h with rfl
    exact hz

/-- C2 witness: the first accepted tree of the seed-12345 run, with its
membership discharged concretely, classifies as TREE. -/
theorem placement_zone_containment_witness :
    toPos (2079646450, 3513001552) ∈
        (placeObjects ⟨FIXED_SEED⟩ 5 .TREE 4).positions ∧
      getLayoutZone (toPos (2079646450, 3513001552)).x
        (toPos (2079646450, 3513001552)).z = some Zone.TREE := by
  have hmem : toPos (2079646450, 3513001552) ∈
      (placeObjects ⟨FIXED_SEED⟩ 5 .TREE 4).positions := by
    rw [placeTree_eval]
    exact List.mem_map_of_mem toPos (by simp)
  exact ⟨hmem, placement_zone_containment ⟨FIXED_SEED⟩ 5 .TREE 4 _ hmem⟩

/-- C3: positions accepted within one placement call with `minDistance = d > 0`
are pairwise at least `d` apart (stated on squared distances, which for
`d > 0` is equivalent to `distance(p, q) ≥ d`). -/
theorem placement_separation (s : RngState) (count : Nat) (z : Zone)
    (minD : ℚ) (hpos : 0 < minD) :
    ((placeObjects s count z minD).positions).Pairwise (fun p q =>
      minD * minD ≤ (p.x - q.x) * (p.x - q.x) + (p.z - q.z) * (p.z - q.z)) := by
  refine placeLoop_inv count z minD
    (fun l => l.Pairwise (fun p q =>
      minD * minD ≤ (p.x - q.x) * (p.x - q.x) + (p.z - q.z) * (p.z - q.z)))
    ?_ 10000 s [] 0 List.Pairwise.nil
  intro kx kz acc hacc _ _ hall
  rw [List.pairwise_append]
  refine ⟨hacc, List.pairwise_singleton _ _, ?_⟩
  intro a ha b hb
  rcases List.mem_singleton.mp hb with rfl
  have h := List.all_eq_true.mp (hall hpos) a ha
  simp only [Bool.not_eq_true', decide_eq_false_iff_not, not_lt] at h
  have hflip : (worldCoord kx - a.x) * (worldCoord kx - a.x) +
      (worldCoord kz - a.z) * (worldCoord kz - a.z) =
      (a.x - worldCoord kx) * (a.x - worldCoord kx) +
        (a.z - worldCoord kz) * (a.z - worldCoord kz) := by ring
  exact le_of_le_of_eq (hflip ▸ h) rfl

/-- C3 witness: the tree call (`minDistance = 4 > 0`) keeps its accepted
positions pairwise at least 4 apart. -/
theorem placement_separation_witness :
    (0 : ℚ) < 4 ∧
      ((placeObjects ⟨FIXED_SEED⟩ 5 .TREE 4).positions).Pairwise (fun p q =>
        (4 : ℚ) * 4 ≤ (p.x - q.x) * (p.x - q.x) + (p.z - q.z) * (p.z - q.z)) :=
  ⟨by norm_num, placement_separation ⟨FIXED_SEED⟩ 5 .TREE 4 (by norm_num)⟩

/-- C4: a placement call never returns more positions than requested and its
attempt counter never exceeds the fixed 10000-attempt budget; the loop is
structurally bounded by that budget (fuel), so it always terminates and
under-fulfilment is returned, not raised. -/
theorem placement_bounded (s : RngState) (count : Nat) (z : Zone)
    (minD : ℚ) :
    (placeObjects s count z minD).positions.length ≤ count ∧
      (placeObjects s count z minD).attempts ≤ 10000 := by
  constructor
  · refine placeLoop_inv count z minD (fun l => l.length ≤ count)
      ?_ 10000 s [] 0 (Nat.zero_le count)
    intro kx kz acc _ hlen _ _
    rw [List.length_append]
    simpa using hlen
  · exact placeLoop_att count z minD 10000 s [] 0

/-! ## Determinism and effect isolation of the family builders -/

/-- `createFamily` hands back the ambient environment it saved, whatever the
body did. -/
theorem createFamily_env {υ κ : Type} (env : GlobalEnv) (seed : Nat)
    (body : (Nat → ℚ) → Except String (υ × κ)) :
    (createFamily env seed body).2 = env := rfl

/-- The handles a family list builds do not depend on the ambient
`Math.random`: every builder swaps in its own seeded stream first. -/
theorem buildFamilies_handles {υ κ : Type}
    (L : List (Nat × ((Nat → ℚ) → Except String (υ × κ)))) :
    ∀ env env' : GlobalEnv,
      (buildFamilies env L).1 = (buildFamilies env' L).1 := by
  induction L with
  | nil => intro env env'; rfl
  | cons hd tl ih =>
    intro env env'
    rcases hd with ⟨seed, body⟩
    simp only [buildFamilies]
    rw [createFamily_env, createFamily_env,
      show (createFamily env seed body).1 = (createFamily env' seed body).1
        from rfl,
      ih env env']

/-- C1 (amended): two world builds agree bit for bit on the layout's
position lists and on every family built through the seeded-override
skeleton, whatever ambient `Math.random` state each run starts from — those
builders draw all randomness from their seeded mulberry32 streams.  The
claim's "all randomness" is false of the program: `createRocks` never
overrides `Math.random` and draws its per-instance transform jitter from the
ambient stream, so rock instance transform arrays are not reproducible — see
the counterexample. -/
theorem world_build_deterministic {υ κ : Type} (env env' : GlobalEnv)
    (grassPatchCount : Nat)
    (builders : List (Nat × ((Nat → ℚ) → Except String (υ × κ)))) :
    (buildWorld env grassPatchCount builders).1 =
        (buildWorld env' grassPatchCount builders).1 ∧
      (buildWorld env grassPatchCount builders).2.1 =
        (buildWorld env' grassPatchCount builders).2.1 :=
  ⟨rfl, buildFamilies_handles builders env env'⟩

/-- C1 counterexample: two runs of the rock builder under different ambient
`Math.random` states produce different instance transform arrays — already
the first rock's base scale differs (2 against 11/4). -/
theorem world_rock_jitter_differs :
    (createRocks ⟨fun _ => 0⟩ 1).1 ≠ (createRocks ⟨fun _ => 1/2⟩ 1).1 := by
  with_unfolding_all decide

/-- C9: a family whose construction body throws is replaced by the inert
no-op handles, and every other family of the build is exactly what it would
have been anyway. -/
theorem family_failure_isolated {υ κ : Type} (env : GlobalEnv)
    (pre post : List (Nat × ((Nat → ℚ) → Except String (υ × κ))))
    (seed : Nat) (body : (Nat → ℚ) → Except String (υ × κ)) (msg : String)
    (hthrow : body (mulberrySeq seed) = .error msg) :
    (buildFamilies env (pre ++ (seed, body) :: post)).1 =
      (buildFamilies env pre).1 ++
        ⟨none, none⟩ :: (buildFamilies env post).1 := by
  induction pre generalizing env with
  | nil =>
    simp only [List.nil_append, buildFamilies]
    rw [createFamily_env]
    have hh : (createFamily env seed body).1 =
        (⟨none, none⟩ : FamilyHandles υ κ) := by
      simp only [createFamily]
      rw [hthrow]
    rw [hh]
  | cons hd tl ih =>
    rcases hd with ⟨s0, b0⟩
    rw [List.cons_append]
    simp only [buildFamilies]
    rw [createFamily_env, ih env]
    exact (List.cons_append _ _ _).symm

/-- C9 witness: in a three-family build whose middle construction throws, the
middle family degrades to the no-op handles and the first and third build
exactly as in isolation. -/
theorem family_failure_isolated_witness :
    ((fun _ => Except.error "Bush generation failed" :
        (Nat → ℚ) → Except String (Nat × Nat)) (mulberrySeq 123456) =
      Except.error "Bush generation failed") ∧
      (buildFamilies (⟨fun _ => 0⟩ : GlobalEnv)
          ([(111, fun _ => Except.ok (1, 2))] ++
            (123456, (fun _ => Except.error "Bush generation failed" :
              (Nat → ℚ) → Except String (Nat × Nat))) ::
              [(222, fun _ => Except.ok (3, 4))])).1 =
        (buildFamilies (⟨fun _ => 0⟩ : GlobalEnv)
            [(111, fun _ => Except.ok (1, 2))]).1 ++
          ⟨none, none⟩ ::
            (buildFamilies (⟨fun _ => 0⟩ : GlobalEnv)
              [(222, fun _ => Except.ok (3, 4))]).1 :=
  ⟨rfl, family_failure_isolated ⟨fun _ => 0⟩
    [(111, fun _ => Except.ok (1, 2))] [(222, fun _ => Except.ok (3, 4))]
    123456 (fun _ => Except.error "Bush generation failed")
    "Bush generation failed" rfl⟩

/-- C10: every builder restores the saved `Math.random` by the time it
returns — the `finally` branch runs whether the construction body succeeded
or threw, so the seeded override never leaks past the family's
construction. -/
theorem math_random_restored {υ κ : Type} (env : GlobalEnv) (seed : Nat)
    (body : (Nat → ℚ) → Except String (υ × κ)) :
    ((createFamily env seed body).2).mathRandom = env.mathRandom := rfl

/-! ## The LOD controllers -/

/-- The bush tier count is `floor(fullCount * tierFraction)`. -/
theorem bushLOD_floor (full : Nat) (d : ℚ) :
    bushLODCount full d = Nat.floor ((full : ℚ) * bushTierFraction d) := by
  unfold bushLODCount bushTierFraction
  split_ifs <;> simp [Nat.floor_natCast]

/-- The tree tier count is `floor(fullCount * tierFraction)`. -/
theorem treeLOD_floor (full : Nat) (d : ℚ) :
    treeLODCount full d = Nat.floor ((full : ℚ) * treeTierFraction d) := by
  unfold treeLODCount treeTierFraction
  split_ifs <;> simp [Nat.floor_natCast]

/-- The bush tier fraction never increases with distance. -/
theorem bushFrac_mono (d d' : ℚ) (h : d ≤ d') :
    bushTierFraction d' ≤ bushTierFraction d := by
  unfold bushTierFraction
  split_ifs <;> linarith

/-- The tree tier fraction never increases with distance. -/
theorem treeFrac_mono (d d' : ℚ) (h : d ≤ d') :
    treeTierFraction d' ≤ treeTierFraction d := by
  unfold treeTierFraction
  split_ifs <;> linarith

/-- The bush active count never increases with distance. -/
theorem bushCount_mono (full : Nat) (d d' : ℚ) (h : d ≤ d') :
    bushLODCount full d' ≤ bushLODCount full d := by
  rw [bushLOD_floor, bushLOD_floor]
  exact Nat.floor_mono
    (mul_le_mul_of_nonneg_left (bushFrac_mono d d' h) (Nat.cast_nonneg full))

/-- The tree active count never increases with distance. -/
theorem treeCount_mono (full : Nat) (d d' : ℚ) (h : d ≤ d') :
    treeLODCount full d' ≤ treeLODCount full d := by
  rw [treeLOD_floor, treeLOD_floor]
  exact Nat.floor_mono
    (mul_le_mul_of_nonneg_left (treeFrac_mono d d' h) (Nat.cast_nonneg full))

/-- C5 (amended): in-frustum batches get `count = floor(total * tierFraction)`
with a non-increasing step tierFraction, so the active count never increases
with distance; the bush controller additionally culls (marks invisible)
beyond `CULL_DIST = 22`.  The tree controller has no cull branch — see the
counterexample. -/
theorem lod_tier_monotone :
    (∀ (d : ℚ) (full : Nat) (prev : BatchView), ¬ d > 22 →
        bushUpdate true d full prev =
          ⟨true, Nat.floor ((full : ℚ) * bushTierFraction d)⟩) ∧
      (∀ (d : ℚ) (full : Nat) (prev : BatchView),
        treeUpdate true d full prev =
          ⟨true, Nat.floor ((full : ℚ) * treeTierFraction d)⟩) ∧
      (∀ (full : Nat) (d d' : ℚ), d ≤ d' →
        bushLODCount full d' ≤ bushLODCount full d) ∧
      (∀ (full : Nat) (d d' : ℚ), d ≤ d' →
        treeLODCount full d' ≤ treeLODCount full d) ∧
      (∀ (b : Bool) (d : ℚ) (full : Nat) (prev : BatchView), d > 22 →
        (bushUpdate b d full prev).visible = false) := by
  refine ⟨?_, ?_, ?_, ?_, ?_⟩
  · intro d full prev hd
    unfold bushUpdate
    rw [if_neg (by simp), if_neg hd, bushLOD_floor]
  · intro d full prev
    unfold treeUpdate
    rw [if_neg (by simp), treeLOD_floor]
  · exact fun full d d' h => bushCount_mono full d d' h
  · exact fun full d d' h => treeCount_mono full d d' h
  · intro b d full prev hd
    unfold bushUpdate
    rcases b with _ | _
    · rfl
    · rw [if_neg (by simp), if_pos hd]

/-- C5 counterexample: a tree batch one million units away is still marked
visible (at the 40% tier) — the tree update has no hard cull radius. -/
theorem tree_no_hard_cull :
    (treeUpdate true 1000000 200 ⟨false, 0⟩).visible = true ∧
      treeUpdate true 1000000 200 ⟨false, 0⟩ = ⟨true, 80⟩ := by
  constructor
  · rfl
  · unfold treeUpdate treeLODCount
    rw [if_neg (by simp), if_neg (by norm_num), if_neg (by norm_num),
      show ((200 : Nat) : ℚ) * (4/10) = ((80 : Nat) : ℚ) from by norm_num,
      Nat.floor_natCast]

/-- C6 (amended): the grass per-frame update touches only the shared
uniforms and leaves every batch's visibility and count unchanged — grass has
no per-batch LOD controller.  The claimed `300 → 120` (40%) tier arithmetic
does hold for the bush controller, whose 40% tier covers distance 6.0. -/
theorem grass_lod_scenario :
    (∀ (t : ℚ) (c : ℚ × ℚ × ℚ) (u : GrassUniforms) (b : BatchView),
        (grassUpdate t c u b).2 = b) ∧
      bushUpdate true 6 300 ⟨true, 300⟩ = ⟨true, 120⟩ := by
  refine ⟨fun t c u b => rfl, ?_⟩
  unfold bushUpdate bushLODCount
  rw [if_neg (by simp), if_neg (by norm_num), if_neg (by norm_num),
    if_pos (by norm_num),
    show ((300 : Nat) : ℚ) * (4/10) = ((120 : Nat) : ℚ) from by norm_num,
    Nat.floor_natCast]

/-- C6 counterexample: a grass batch with 300 active instances still has 300
after the per-frame update — not the 120 the scenario expects. -/
theorem grass_update_count_unchanged :
    ((grassUpdate 0 (0, 0, 0) ⟨0, (0, 0, 0)⟩ ⟨true, 300⟩).2).count = 300 ∧
      ((grassUpdate 0 (0, 0, 0) ⟨0, (0, 0, 0)⟩ ⟨true, 300⟩).2).count ≠ 120 :=
  ⟨rfl, by decide⟩

/-- C7: a batch rejected by the frustum test is marked invisible with its
count untouched, and the result does not depend on the camera distance — no
distance or tier computation is reached. -/
theorem frustum_short_circuit (d d' : ℚ) (full : Nat) (prev : BatchView) :
    bushUpdate false d full prev = ⟨false, prev.count⟩ ∧
      treeUpdate false d full prev = ⟨false, prev.count⟩ ∧
      bushUpdate false d full prev = bushUpdate false d' full prev ∧
      treeUpdate false d full prev = treeUpdate false d' full prev :=
  ⟨rfl, rfl, rfl, rfl⟩

/-! ## The seed-12345 concrete scenario -/

/-- A scaled-integer bound yields the ℚ separation lower bound for
`minDistance = 4`. -/
theorem sepGE (kx kz px pz : Nat)
    (h : ¬ sepScaledSq kx kz px pz < 16 * 2 ^ 60) :
    (4 : ℚ) * 4 ≤
      (worldCoord kx - worldCoord px) * (worldCoord kx - worldCoord px) +
        (worldCoord kz - worldCoord pz) * (worldCoord kz - worldCoord pz) :=
  le_of_not_lt fun hc =>
    h ((sep_iff kx kz px pz 4 (16 * 2 ^ 60) (by norm_num)).mp hc)

/-- C8 counterexample: the seed-12345 layout accepts exactly one rock
position, not the two the scenario expects — no second EMPTY-zone draw that
also clears the separation test arrives within the 10000-attempt budget. -/
theorem layout_seed12345_rock_count :
    (layout 40).rockPositions.length = 1 ∧
      (layout 40).rockPositions.length ≠ 2 := by
  rw [layout40_rock]
  exact ⟨rfl, by decide⟩

set_option maxRecDepth 500000 in
/-- C8 (amended): building the world with seed 12345 and spread 20.0 places
exactly ONE rock position (not two), classified EMPTY; five tree positions,
each classified TREE; every tree pair at least 4.0 apart (squared form); and
the run is reproducible — the positions are exactly the images of the fixed
raw draws below, the same on every run of the pure layout function. -/
theorem layout_seed12345_scenario :
    (layout 40).rockPositions = List.map toPos [(2185908461, 2137126242)] ∧
      (∀ p ∈ (layout 40).rockPositions,
        getLayoutZone p.x p.z = some Zone.EMPTY) ∧
      (layout 40).allTreePositions.length = 5 ∧
      (∀ p ∈ (layout 40).allTreePositions,
        getLayoutZone p.x p.z = some Zone.TREE) ∧
      (layout 40).allTreePositions.Pairwise (fun p q =>
        (4 : ℚ) * 4 ≤ (p.x - q.x) * (p.x - q.x) + (p.z - q.z) * (p.z - q.z)) := by
  refine ⟨layout40_rock, ?_, ?_, ?_, ?_⟩
  · rw [layout40_rock]
    intro p hp
    rcases List.mem_map.mp hp with ⟨raw, hraw, rfl⟩
    fin_cases hraw
    show getLayoutZone (worldCoord 2185908461) (worldCoord 2137126242) =
      some Zone.EMPTY
    rw [getLayoutZone_worldCoord _ _ (by norm_num) (by norm_num)]
    decide
  · rw [layout40_allTree]; rfl
  · rw [layout40_allTree]
    intro p hp
    rcases List.mem_map.mp hp with ⟨raw, hraw, rfl⟩
    fin_cases hraw
    · show getLayoutZone (worldCoord 2079646450) (worldCoord 3513001552) =
        some Zone.TREE
      rw [getLayoutZone_worldCoord _ _ (by norm_num) (by norm_num)]
      decide
    · show getLayoutZone (worldCoord 2158873410) (worldCoord 719588981) =
        some Zone.TREE
      rw [getLayoutZone_worldCoord _ _ (by norm_num) (by norm_num)]
      decide
    · show getLayoutZone (worldCoord 998967627) (worldCoord 3294806711) =
        some Zone.TREE
      rw [getLayoutZone_worldCoord _ _ (by norm_num) (by norm_num)]
      decide
    · show getLayoutZone (worldCoord 1019231168) (worldCoord 1075719198) =
        some Zone.TREE
      rw [getLayoutZone_worldCoord _ _ (by norm_num) (by norm_num)]
      decide
    · show getLayoutZone (worldCoord 3492578935) (worldCoord 1439196053) =
        some Zone.TREE
      rw [getLayoutZone_worldCoord _ _ (by norm_num) (by norm_num)]
      decide
  · rw [layout40_allTree]
    simp only [List.map]
    refine List.Pairwise.cons ?_ (List.Pairwise.cons ?_ (List.Pairwise.cons ?_
      (List.Pairwise.cons ?_ (List.pairwise_singleton _ _))))
    · intro b hb
      fin_cases hb <;> exact sepGE _ _ _ _ (by decide)
    · intro b hb
      fin_cases hb <;> exact sepGE _ _ _ _ (by decide)
    · intro b hb
      fin_cases hb <;> exact sepGE _ _ _ _ (by decide)
    · intro b hb
      fin_cases hb <;> exact sepGE _ _ _ _ (by decide)

end Nature3D
